import Mathlib

/-!
Verification development for the nucleoid-persistence-backend stats service.

The service (Rust, `src/model.rs`, `src/database.rs`, `src/web.rs`) stores
per-player and global gameplay statistics in a MongoDB document store.  We give
a shallow embedding of the parts the specification talks about:

* a BSON document model (`Bson`, `BDoc`) together with the Mongo primitives the
  code uses: point lookup by a scalar filter, `insert_one`, `delete_one`, and
  `update_one` with `$inc` / `$set` field-path mutations (dotted keys are split
  into path components exactly as Mongo does);
* the serde encode/decode layer for `PlayerProfile`, `PlayerGameStats`,
  `GlobalGameStats` and the adjacently tagged `GameStat` enum;
* the database-handler operations of `src/database.rs`
  (`update_player_profile`, `get_player_stats`, `ensure_player_stats_document`,
  `ensure_global_stats_document`, `upload_stats_bundle` and the corrupt-document
  quarantine path), written in a state-and-error monad `M` over the store
  state `DB`; the monad also records an event trace marking when an
  ensure step completes and when an increment mutation is issued;
* the upload HTTP handler of `src/web.rs` (token check and stat-name
  validation).

Numeric conventions: Rust `i32` is modelled as `Int` and `f64` as `Rat`
(the claims under study are about which fields are written and by how much,
not about machine-arithmetic rounding or overflow).  Mongo object ids are
modelled as naturals handed out by a counter in the store state.
-/

/-- BSON values, restricted to the constructors this service reads or writes.
`i32` is modelled by `Int`, `f64` by `Rat`, UUID binaries and object ids by
opaque naturals. -/
inductive Bson where
  | int32 (i : Int)
  | double (q : Rat)
  | str (s : String)
  | binary (u : Nat)
  | objectId (n : Nat)
  | null
  | doc (fields : List (String × Bson))

/-- A BSON document: an ordered list of named fields. -/
abbrev BDoc := List (String × Bson)

/-- First field of the document with the given name, if any. -/
def lookupField (d : BDoc) (k : String) : Option Bson :=
  match d with
  | [] => none
  | (k', v) :: rest => if k' = k then some v else lookupField rest k

/-- Replace the value of the first field named `k`; no-op when absent. -/
def setField (d : BDoc) (k : String) (v : Bson) : BDoc :=
  match d with
  | [] => []
  | (k', v') :: rest => if k' = k then (k', v) :: rest else (k', v') :: setField rest k v

/-- Remove every field named `k` (models `bson::Document::remove`). -/
def removeField (d : BDoc) (k : String) : BDoc :=
  d.filter (fun f => f.1 ≠ k)

/-- Equality test for scalar BSON values, as used by the query filters of this
service.  Every filter the code builds compares scalars (uuid binaries,
strings, object ids), so nested documents never appear as filter values; the
`doc` case is therefore unreachable and conservatively `false`. -/
def bsonValEq : Bson → Bson → Bool
  | .int32 a, .int32 b => a = b
  | .double a, .double b => a = b
  | .str a, .str b => a = b
  | .binary a, .binary b => a = b
  | .objectId a, .objectId b => a = b
  | .null, .null => true
  | _, _ => false

/-- A document matches a filter when every filter field occurs in the document
with an equal (scalar) value. -/
def matchesFilter (f : BDoc) (d : BDoc) : Bool :=
  f.all (fun kv =>
    match lookupField d kv.1 with
    | some v => bsonValEq v kv.2
    | none => false)

/-- Number of documents of a collection matching a filter. -/
def countMatching (coll : List BDoc) (f : BDoc) : Nat :=
  (coll.filter (matchesFilter f)).length

/-- Split a character list at every `'.'`, keeping empty components: the field
path interpretation Mongo applies to dotted keys. -/
def splitDots : List Char → List (List Char)
  | [] => [[]]
  | c :: cs =>
    if c = '.' then [] :: splitDots cs
    else
      match splitDots cs with
      | [] => [[c]]
      | p :: ps => (c :: p) :: ps

/-- Mongo's interpretation of a dotted key as a field path. -/
def splitKey (s : String) : List String :=
  (splitDots s.data).map (fun l => ⟨l⟩)

/-- Mongo `$inc` arithmetic: integers stay integers, any float operand
promotes to a float; incrementing a non-numeric value is an error. -/
def addBson : Bson → Bson → Except String Bson
  | .int32 a, .int32 b => .ok (.int32 (a + b))
  | .int32 a, .double b => .ok (.double ((a : Rat) + b))
  | .double a, .int32 b => .ok (.double (a + (b : Rat)))
  | .double a, .double b => .ok (.double (a + b))
  | _, _ => .error "Cannot apply $inc to a value of non-numeric type"

/-- Apply `$inc amount` at a field path: missing fields are created (set to
the amount), intermediate missing documents are created, and traversing or
incrementing a value of the wrong type fails the whole update. -/
def applyIncPath (d : BDoc) (path : List String) (amount : Bson) : Except String BDoc :=
  match path with
  | [] => .error "empty field path"
  | [k] =>
    match lookupField d k with
    | none => .ok (d ++ [(k, amount)])
    | some old =>
      match addBson old amount with
      | .ok v => .ok (setField d k v)
      | .error e => .error e
  | k :: rest =>
    match lookupField d k with
    | none =>
      match applyIncPath [] rest amount with
      | .ok sub => .ok (d ++ [(k, .doc sub)])
      | .error e => .error e
    | some (.doc sub) =>
      match applyIncPath sub rest amount with
      | .ok sub' => .ok (setField d k (.doc sub'))
      | .error e => .error e
    | some _ => .error "Cannot create field in element"

/-- Apply `$set value` at a field path: overwrites or creates the final
field, creating intermediate documents; traversing a non-document fails. -/
def applySetPath (d : BDoc) (path : List String) (value : Bson) : Except String BDoc :=
  match path with
  | [] => .error "empty field path"
  | [k] =>
    match lookupField d k with
    | none => .ok (d ++ [(k, value)])
    | some _ => .ok (setField d k value)
  | k :: rest =>
    match lookupField d k with
    | none =>
      match applySetPath [] rest value with
      | .ok sub => .ok (d ++ [(k, .doc sub)])
      | .error e => .error e
    | some (.doc sub) =>
      match applySetPath sub rest value with
      | .ok sub' => .ok (setField d k (.doc sub'))
      | .error e => .error e
    | some _ => .error "Cannot create field in element"

/-- Apply a list of `$inc` entries (dotted keys) in order. -/
def applyIncs (entries : List (String × Bson)) (d : BDoc) : Except String BDoc :=
  match entries with
  | [] => .ok d
  | (k, v) :: rest =>
    match applyIncPath d (splitKey k) v with
    | .ok d' => applyIncs rest d'
    | .error e => .error e

/-- Apply a list of `$set` entries (dotted keys) in order. -/
def applySets (entries : List (String × Bson)) (d : BDoc) : Except String BDoc :=
  match entries with
  | [] => .ok d
  | (k, v) :: rest =>
    match applySetPath d (splitKey k) v with
    | .ok d' => applySets rest d'
    | .error e => .error e

/-- Apply an update document (a list of `$inc` / `$set` operator entries) to a
document.  Any failing entry fails the whole update, leaving the stored
document untouched (Mongo updates are atomic per document). -/
def applyUpdate (u : BDoc) (d : BDoc) : Except String BDoc :=
  match u with
  | [] => .ok d
  | ("$inc", .doc entries) :: rest =>
    match applyIncs entries d with
    | .ok d' => applyUpdate rest d'
    | .error e => .error e
  | ("$set", .doc entries) :: rest =>
    match applySets entries d with
    | .ok d' => applyUpdate rest d'
    | .error e => .error e
  | _ => .error "unsupported update operator"

/-- The `GameStat` from `src/model.rs`: the stored (accumulated) form of a
statistic.  Serde wire tags (snake_case of the variant name): `int_total`,
`int_average`, `float_total`, `float_average`. -/
inductive GameStat where
  | intTotal (v : Int)
  | intAverage (total : Int) (count : Int)
  | floatTotal (v : Rat)
  | floatAverage (total : Rat) (count : Int)
deriving DecidableEq

/-- The `impl Into<f64> for GameStat` from `src/model.rs`: totals decode to
themselves, averages to `total / count`.  The division is performed
unconditionally (no `count = 0` guard in the source); `f64` is modelled by
`Rat`, so the `count = 0` case of the model yields `Rat` division by zero
where the Rust code yields an `f64` infinity or NaN. -/
def gameStatValue : GameStat → Rat
  | .intTotal v => (v : Rat)
  | .intAverage total count => (total : Rat) / (count : Rat)
  | .floatTotal v => v
  | .floatAverage total count => total / (count : Rat)

/-- The `UploadStat` from `src/model.rs`: the incoming (command) form.  Wire tags:
`int_total`, `int_rolling_average`, `float_total`, `float_rolling_average`. -/
inductive UploadStat where
  | intTotal (v : Int)
  | intRollingAverage (v : Int)
  | floatTotal (v : Rat)
  | floatRollingAverage (v : Rat)
deriving DecidableEq

/-- The serde wire tag written by `create_increment_operation`'s `$set`. -/
def uploadStatTag : UploadStat → String
  | .intTotal _ => "int_total"
  | .intRollingAverage _ => "int_rolling_average"
  | .floatTotal _ => "float_total"
  | .floatRollingAverage _ => "float_rolling_average"

/-- The `UploadStat::create_increment_operation` from `src/model.rs`: the BSON
update document for folding one incoming stat into the stored document. -/
def create_increment_operation (s : UploadStat) (id : String) : BDoc :=
  let value_key := "stats." ++ id ++ ".value"
  let type_key := "stats." ++ id ++ ".type"
  let total_key := value_key ++ ".total"
  let count_key := value_key ++ ".count"
  match s with
  | .intTotal value =>
    [("$inc", .doc [(value_key, .int32 value)]),
     ("$set", .doc [(type_key, .str "int_total")])]
  | .intRollingAverage value =>
    [("$inc", .doc [(total_key, .int32 value), (count_key, .int32 1)]),
     ("$set", .doc [(type_key, .str "int_rolling_average")])]
  | .floatTotal value =>
    [("$inc", .doc [(value_key, .double value)]),
     ("$set", .doc [(type_key, .str "float_total")])]
  | .floatRollingAverage value =>
    [("$inc", .doc [(total_key, .double value), (count_key, .int32 1)]),
     ("$set", .doc [(type_key, .str "float_rolling_average")])]

/-- The `PlayerProfile` from `src/model.rs`. -/
structure PlayerProfile where
  uuid : Nat
  username : Option String
deriving DecidableEq

/-- The `PlayerGameStats` from `src/model.rs` (stats as an association list). -/
structure PlayerGameStats where
  uuid : Nat
  namespace' : String
  stats : List (String × GameStat)
deriving DecidableEq

/-- The `GlobalGameStats` from `src/model.rs`. -/
structure GlobalGameStats where
  namespace' : String
  stats : List (String × GameStat)
deriving DecidableEq

/-- The `StatsBundle` from `src/model.rs` (hash maps as association lists). -/
structure StatsBundle where
  global : Option (List (String × UploadStat))
  players : List (Nat × List (String × UploadStat))

/-- The `GameStatsBundle` from `src/model.rs`. -/
structure GameStatsBundle where
  server_name : String
  namespace' : String
  stats : StatsBundle

/-- serde deserialization of an `i32` field from BSON: only `Int32` is
accepted; a floating-point value yields the
`invalid type: floating point ..., expected i32` error quoted in the
source's comment. -/
def decodeI32 : Bson → Except String Int
  | .int32 i => .ok i
  | .double _ => .error "invalid type: floating point, expected i32"
  | _ => .error "invalid type: expected i32"

/-- serde deserialization of an `f64` field from BSON: doubles and (lossily
converted) integers are accepted. -/
def decodeF64 : Bson → Except String Rat
  | .double q => .ok q
  | .int32 i => .ok (i : Rat)
  | _ => .error "invalid type: expected f64"

/-- serde deserialization of the adjacently tagged `GameStat` enum
(`#[serde(tag = "type", content = "value", rename_all = "snake_case")]`). -/
def decodeGameStat : Bson → Except String GameStat
  | .doc fields =>
    match lookupField fields "type" with
    | some (.str tag) =>
      match lookupField fields "value" with
      | some value =>
        if tag = "int_total" then
          match decodeI32 value with
          | .ok v => .ok (.intTotal v)
          | .error e => .error e
        else if tag = "int_average" then
          match value with
          | .doc sub =>
            match lookupField sub "total", lookupField sub "count" with
            | some t, some c =>
              match decodeI32 t, decodeI32 c with
              | .ok t', .ok c' => .ok (.intAverage t' c')
              | .error e, _ => .error e
              | _, .error e => .error e
            | _, _ => .error "missing field in int_average"
          | _ => .error "invalid type: expected struct variant"
        else if tag = "float_total" then
          match decodeF64 value with
          | .ok v => .ok (.floatTotal v)
          | .error e => .error e
        else if tag = "float_average" then
          match value with
          | .doc sub =>
            match lookupField sub "total", lookupField sub "count" with
            | some t, some c =>
              match decodeF64 t, decodeI32 c with
              | .ok t', .ok c' => .ok (.floatAverage t' c')
              | .error e, _ => .error e
              | _, .error e => .error e
            | _, _ => .error "missing field in float_average"
          | _ => .error "invalid type: expected struct variant"
        else .error ("unknown variant " ++ tag)
      | none => .error "missing field value"
    | _ => .error "missing field type"
  | _ => .error "invalid type: expected map"

/-- serde serialization of `GameStat` (adjacently tagged). -/
def encodeGameStat : GameStat → Bson
  | .intTotal v => .doc [("type", .str "int_total"), ("value", .int32 v)]
  | .intAverage t c =>
    .doc [("type", .str "int_average"),
          ("value", .doc [("total", .int32 t), ("count", .int32 c)])]
  | .floatTotal v => .doc [("type", .str "float_total"), ("value", .double v)]
  | .floatAverage t c =>
    .doc [("type", .str "float_average"),
          ("value", .doc [("total", .double t), ("count", .int32 c)])]

/-- Decode each entry of a stored stats map. -/
def decodeStatsMap : List (String × Bson) → Except String (List (String × GameStat))
  | [] => .ok []
  | (k, v) :: rest =>
    match decodeGameStat v with
    | .ok g =>
      match decodeStatsMap rest with
      | .ok gs => .ok ((k, g) :: gs)
      | .error e => .error e
    | .error e => .error e

/-- serde serialization of a stats map. -/
def encodeStatsMap (m : List (String × GameStat)) : List (String × Bson) :=
  m.map (fun kv => (kv.1, encodeGameStat kv.2))

/-- serde serialization of `PlayerProfile` (uuid as BSON binary, `None`
username as BSON null). -/
def encodeProfile (p : PlayerProfile) : BDoc :=
  [("uuid", .binary p.uuid),
   ("username", match p.username with | some s => .str s | none => .null)]

/-- serde deserialization of `PlayerProfile`; unknown fields (such as the
driver-assigned `_id`) are ignored, a missing or null `username` is `None`. -/
def decodeProfile (d : BDoc) : Except String PlayerProfile :=
  match lookupField d "uuid" with
  | some (.binary u) =>
    match lookupField d "username" with
    | some (.str s) => .ok ⟨u, some s⟩
    | some .null => .ok ⟨u, none⟩
    | none => .ok ⟨u, none⟩
    | some _ => .error "invalid type: expected string"
  | _ => .error "missing or invalid field uuid"

/-- serde serialization of `PlayerGameStats` (field order of the struct). -/
def encodePlayerGameStats (s : PlayerGameStats) : BDoc :=
  [("uuid", .binary s.uuid),
   ("namespace", .str s.namespace'),
   ("stats", .doc (encodeStatsMap s.stats))]

/-- serde deserialization of `PlayerGameStats`; unknown fields ignored. -/
def decodePlayerGameStats (d : BDoc) : Except String PlayerGameStats :=
  match lookupField d "uuid" with
  | some (.binary u) =>
    match lookupField d "namespace" with
    | some (.str ns) =>
      match lookupField d "stats" with
      | some (.doc sm) =>
        match decodeStatsMap sm with
        | .ok stats => .ok ⟨u, ns, stats⟩
        | .error e => .error e
      | _ => .error "missing or invalid field stats"
    | _ => .error "missing or invalid field namespace"
  | _ => .error "missing or invalid field uuid"

/-- serde serialization of `GlobalGameStats`. -/
def encodeGlobalGameStats (s : GlobalGameStats) : BDoc :=
  [("namespace", .str s.namespace'),
   ("stats", .doc (encodeStatsMap s.stats))]

/-- serde deserialization of `GlobalGameStats`; unknown fields ignored. -/
def decodeGlobalGameStats (d : BDoc) : Except String GlobalGameStats :=
  match lookupField d "namespace" with
  | some (.str ns) =>
    match lookupField d "stats" with
    | some (.doc sm) =>
      match decodeStatsMap sm with
      | .ok stats => .ok ⟨ns, stats⟩
      | .error e => .error e
    | _ => .error "missing or invalid field stats"
  | _ => .error "missing or invalid field namespace"

/-- The subject a stats document is keyed on. -/
inductive Subject where
  | player (uuid : Nat) (ns : String)
  | global (ns : String)
deriving DecidableEq

/-- Trace events: an ensure-document step completed for a subject, or an
increment mutation for one named stat of a subject was issued to the store. -/
inductive Event where
  | ensured (s : Subject)
  | increment (s : Subject) (stat : String)
deriving DecidableEq

/-- The store state: the four collections used by `src/database.rs`, the
driver's object-id counter, and the event trace. -/
structure DB where
  players : List BDoc
  playerStats : List BDoc
  globalStats : List BDoc
  corruptStats : List BDoc
  nextId : Nat
  trace : List Event

/-- The four collections. -/
inductive Coll where
  | players
  | playerStats
  | globalStats
  | corruptStats
deriving DecidableEq

def DB.coll (db : DB) : Coll → List BDoc
  | .players => db.players
  | .playerStats => db.playerStats
  | .globalStats => db.globalStats
  | .corruptStats => db.corruptStats

def DB.setColl (db : DB) : Coll → List BDoc → DB
  | .players, l => { db with players := l }
  | .playerStats, l => { db with playerStats := l }
  | .globalStats, l => { db with globalStats := l }
  | .corruptStats, l => { db with corruptStats := l }

/-- The sequential database-handler computation: one request runs to
completion against the store state; Rust `Result` errors are `Except`
errors. -/
def M (α : Type) : Type := DB → Except String (α × DB)

instance : Monad M where
  pure a := fun db => .ok (a, db)
  bind x f := fun db =>
    match x db with
    | .ok (a, db') => f a db'
    | .error e => .error e

/-- Fail with a Rust-side error (`anyhow::Error`, serde decode error, …). -/
def throwM {α : Type} (e : String) : M α := fun _ => .error e

/-- The `find(filter).limit(1)` followed by reading the raw first document. -/
def mFindFirst (c : Coll) (f : BDoc) : M (Option BDoc) :=
  fun db => .ok ((db.coll c).find? (matchesFilter f), db)

/-- The `find(filter)` reading all raw matching documents. -/
def mFindAll (c : Coll) (f : BDoc) : M (List BDoc) :=
  fun db => .ok ((db.coll c).filter (matchesFilter f), db)

/-- The `insert_one`: the driver assigns a fresh `_id` when the document has
none. -/
def mInsertOne (c : Coll) (d : BDoc) : M Unit :=
  fun db =>
    let d' := if (lookupField d "_id").isSome then d else ("_id", .objectId db.nextId) :: d
    .ok ((), { db.setColl c ((db.coll c) ++ [d']) with nextId := db.nextId + 1 })

/-- The `delete_one`: removes the first matching document. -/
def mDeleteOne (c : Coll) (f : BDoc) : M Unit :=
  fun db => .ok ((), db.setColl c ((db.coll c).eraseP (matchesFilter f)))

/-- Replace the first document satisfying `p` by its image under the update;
documents before the first match are untouched. -/
def updateFirstDoc (l : List BDoc) (p : BDoc → Bool) (u : BDoc) : Except String (List BDoc) :=
  match l with
  | [] => .ok []
  | d :: rest =>
    if p d then
      match applyUpdate u d with
      | .ok d' => .ok (d' :: rest)
      | .error e => .error e
    else
      match updateFirstDoc rest p u with
      | .ok rest' => .ok (d :: rest')
      | .error e => .error e

/-- The `update_one`: applies the update to the first matching document; no
match is a successful no-op; a failing update fails the request. -/
def mUpdateOne (c : Coll) (f : BDoc) (u : BDoc) : M Unit :=
  fun db =>
    match updateFirstDoc (db.coll c) (matchesFilter f) u with
    | .ok l => .ok ((), db.setColl c l)
    | .error e => .error e

/-- Record a trace event. -/
def emitM (e : Event) : M Unit :=
  fun db => .ok ((), { db with trace := db.trace ++ [e] })

/-- The filter `doc! {"uuid": uuid_to_bson(uuid)?}`. -/
def profileFilter (uuid : Nat) : BDoc := [("uuid", .binary uuid)]

/-- The filter `doc! {"uuid": ..., "namespace": ...}`. -/
def playerStatsFilter (uuid : Nat) (ns : String) : BDoc :=
  [("uuid", .binary uuid), ("namespace", .str ns)]

/-- The filter `doc! {"namespace": ...}`. -/
def globalStatsFilter (ns : String) : BDoc := [("namespace", .str ns)]

/-- The `MongoDatabaseHandler::get_player_profile`: fetch the first matching
profile document and decode it; a decode failure is an `Err`. -/
def get_player_profile (uuid : Nat) : M (Option PlayerProfile) := do
  let r ← mFindFirst .players (profileFilter uuid)
  match r with
  | none => pure none
  | some d =>
    match decodeProfile d with
    | .ok p => pure (some p)
    | .error e => throwM e

/-- The `MongoDatabaseHandler::update_player_profile` from `src/database.rs`:
creates the profile when absent; when present, only a supplied username that
finds an already-stored username it differs from triggers a `$set`; every
other combination falls through and returns the stored profile unchanged. -/
def update_player_profile (uuid : Nat) (username : Option String) : M PlayerProfile := do
  let p? ← get_player_profile uuid
  match p? with
  | some profile =>
    match username with
    | some username' =>
      match profile.username with
      | some profile_username =>
        if username' ≠ profile_username then do
          mUpdateOne .players (profileFilter uuid)
            [("$set", .doc [("username", .str username')])]
          pure { profile with username := some username' }
        else
          pure profile
      | none => pure profile
    | none => pure profile
  | none => do
    let profile : PlayerProfile := ⟨uuid, username⟩
    mInsertOne .players (encodeProfile profile)
    pure profile

/-- The namespace-to-stats response map (`PlayerStatsResponse`), with the
decoded `f64` display values modelled as `Rat`. -/
abbrev PlayerStatsResponse := List (String × List (String × Rat))

/-- The `HashMap::insert`: replace the value under the key or add the entry. -/
def insertReplace {α : Type} : List (String × α) → String → α → List (String × α)
  | [], k, v => [(k, v)]
  | (k', v') :: rest, k, v =>
    if k' = k then (k, v) :: rest else (k', v') :: insertReplace rest k v

/-- The `while let Some(stats) = stats.try_next()` loop of
`get_player_stats`: decode each matching stats document and fold its decoded
display values into the response map; a decode failure is an `Err`. -/
def buildStatsResponse : List BDoc → PlayerStatsResponse → Except String PlayerStatsResponse
  | [], acc => .ok acc
  | d :: rest, acc =>
    match decodePlayerGameStats d with
    | .ok s =>
      buildStatsResponse rest
        (insertReplace acc s.namespace' (s.stats.map (fun kv => (kv.1, gameStatValue kv.2))))
    | .error e => .error e

/-- The `MongoDatabaseHandler::get_player_stats`: `None` when the player has no
profile; otherwise all matching stats documents decoded into a
namespace-keyed response map. -/
def get_player_stats (uuid : Nat) (namespace? : Option String) :
    M (Option PlayerStatsResponse) := do
  let p? ← get_player_profile uuid
  match p? with
  | none => pure none
  | some _ => do
    let docs ← mFindAll .playerStats
      (match namespace? with
       | some ns => playerStatsFilter uuid ns
       | none => profileFilter uuid)
    match buildStatsResponse docs [] with
    | .ok resp => pure (some resp)
    | .error e => throwM e

/-- The `MongoDatabaseHandler::handle_broken_document` from `src/database.rs`.
The source computes `corrupt_document` (the raw document with its `_id`
removed, per its comment, "so the driver generates a new one when it is
re-inserted") but then passes the original `document` to `insert_one`; the
model reproduces that literally. -/
def handle_broken_document (_e : String) (document : BDoc) (_ns : String)
    (_global : Bool) : M Unit := do
  let _corrupt_document := removeField document "_id"
  mInsertOne .corruptStats document

/-- The `MongoDatabaseHandler::handle_broken_player_stats_document`: quarantine
the raw document and delete the original by its `_id` (`doc.get("_id").unwrap()`
panics when the field is missing, modelled as an error); a vanished document
is only logged. -/
def handle_broken_player_stats_document (e : String) (uuid : Nat) (ns : String) : M Unit := do
  let doc? ← mFindFirst .playerStats (playerStatsFilter uuid ns)
  match doc? with
  | some d => do
    handle_broken_document e d ns false
    match lookupField d "_id" with
    | some idv => mDeleteOne .playerStats [("_id", idv)]
    | none => throwM "panicked at Option::unwrap on a None value"
  | none => pure ()

/-- The `MongoDatabaseHandler::handle_broken_global_stats_document`. -/
def handle_broken_global_stats_document (e : String) (ns : String) : M Unit := do
  let doc? ← mFindFirst .globalStats (globalStatsFilter ns)
  match doc? with
  | some d => do
    handle_broken_document e d ns true
    match lookupField d "_id" with
    | some idv => mDeleteOne .globalStats [("_id", idv)]
    | none => throwM "panicked at Option::unwrap on a None value"
  | none => pure ()

/-- The `MongoDatabaseHandler::ensure_player_stats_document`: ensure the player is
tracked, look the stats document up, quarantine it when it fails to decode,
and insert a fresh empty-stats document when absent or quarantined.  The
trailing trace event marks the completion of the ensure step. -/
def ensure_player_stats_document (uuid : Nat) (ns : String) : M Unit := do
  let _ ← update_player_profile uuid none
  let r ← mFindFirst .playerStats (playerStatsFilter uuid ns)
  let needsNew ←
    match r with
    | none => pure true
    | some d =>
      match decodePlayerGameStats d with
      | .ok _ => pure false
      | .error e => do
        handle_broken_player_stats_document e uuid ns
        pure true
  if needsNew then
    mInsertOne .playerStats (encodePlayerGameStats ⟨uuid, ns, []⟩)
  emitM (.ensured (.player uuid ns))

/-- The `MongoDatabaseHandler::ensure_global_stats_document`. -/
def ensure_global_stats_document (ns : String) : M Unit := do
  let r ← mFindFirst .globalStats (globalStatsFilter ns)
  let needsNew ←
    match r with
    | none => pure true
    | some d =>
      match decodeGlobalGameStats d with
      | .ok _ => pure false
      | .error e => do
        handle_broken_global_stats_document e ns
        pure true
  if needsNew then
    mInsertOne .globalStats (encodeGlobalGameStats ⟨ns, []⟩)
  emitM (.ensured (.global ns))

/-- The inner `for (stat_name, stat) in stats` loop of `upload_stats_bundle`:
issue one increment mutation per named stat of one player.  Each mutation is
traced at the moment it is issued. -/
def upload_player_stat_mutations (uuid : Nat) (ns : String) :
    List (String × UploadStat) → M Unit
  | [] => pure ()
  | (stat_name, stat) :: rest => do
    emitM (.increment (.player uuid ns) stat_name)
    mUpdateOne .playerStats (playerStatsFilter uuid ns)
      (create_increment_operation stat stat_name)
    upload_player_stat_mutations uuid ns rest

/-- The outer `for (player, stats) in bundle.stats.players` loop. -/
def upload_players_loop (ns : String) :
    List (Nat × List (String × UploadStat)) → M Unit
  | [] => pure ()
  | (player, stats) :: rest => do
    ensure_player_stats_document player ns
    upload_player_stat_mutations player ns stats
    upload_players_loop ns rest

/-- The `for (stat_name, stat) in global` loop. -/
def upload_global_stat_mutations (ns : String) : List (String × UploadStat) → M Unit
  | [] => pure ()
  | (stat_name, stat) :: rest => do
    emitM (.increment (.global ns) stat_name)
    mUpdateOne .globalStats (globalStatsFilter ns)
      (create_increment_operation stat stat_name)
    upload_global_stat_mutations ns rest

/-- The `MongoDatabaseHandler::upload_stats_bundle` from `src/database.rs`. -/
def upload_stats_bundle (bundle : GameStatsBundle) : M Unit := do
  upload_players_loop bundle.namespace' bundle.stats.players
  match bundle.stats.global with
  | some globalBundle => do
    ensure_global_stats_document bundle.namespace'
    upload_global_stat_mutations bundle.namespace' globalBundle
  | none => pure ()

/-- HTTP-level outcomes of the upload handler that matter here (the
store-level `Err` path, which the real handler maps to a 500 response, is the
`M` error). -/
inductive ApiResponse where
  | unauthorized
  | badRequest
  | noContent
deriving DecidableEq

/-- Rust `str::contains('.')`. -/
def containsDotChar (s : String) : Bool := s.data.any (fun c => c = '.')

/-- The stat-name validation loop of `upload_game_stats` in `src/web.rs`:
`for (_, stats) in game_stats.stats { for (name, _) in stats { ... } }`.  The
iteration visits the per-player groups of the bundle; the optional global
group is not visited. -/
def statsNameValidationFails (b : GameStatsBundle) : Bool :=
  b.stats.players.any (fun ps => ps.2.any (fun st => containsDotChar st.1))

/-- The `upload_game_stats` from `src/web.rs`: token check, stat-name validation,
then the bundle is handed to the database actor. -/
def upload_game_stats (server_tokens : List String) (authorization : String)
    (game_stats : GameStatsBundle) : M ApiResponse := do
  if ¬ server_tokens.contains authorization then
    pure .unauthorized
  else if statsNameValidationFails game_stats then
    pure .badRequest
  else do
    upload_stats_bundle game_stats
    pure .noContent

/-- The effect on a profile document of the `$set {"username": un}` update. -/
def setUsername (d : BDoc) (un : String) : BDoc :=
  match lookupField d "username" with
  | none => d ++ [("username", .str un)]
  | some _ => setField d "username" (.str un)

/-- Read a nested field along a path of components. -/
def getPath (d : BDoc) : List String → Option Bson
  | [] => none
  | [k] => lookupField d k
  | k :: rest =>
    match lookupField d k with
    | some (.doc sub) => getPath sub rest
    | _ => none

/-- The raw stats document as inserted by the ensure step (empty stats). -/
def freshStatsDoc (u k : Nat) (ns : String) : BDoc :=
  [("_id", .objectId k), ("uuid", .binary u), ("namespace", .str ns), ("stats", .doc [])]

/-- A raw stats document holding exactly one stat entry, value `V` and wire
type tag `t`, under name `n`. -/
def statsEntryDoc (u k : Nat) (ns n : String) (V : Bson) (t : String) : BDoc :=
  [("_id", .objectId k), ("uuid", .binary u), ("namespace", .str ns),
   ("stats", .doc [(n, .doc [("value", V), ("type", .str t)])])]

/-- State of a stats document after a sequence of `update_one` increment
requests for one stat name: a failing update leaves the document unchanged
(the request errors and the store is untouched). -/
def applyStatOps (n : String) (ops : List UploadStat) (d : BDoc) : BDoc :=
  match ops with
  | [] => d
  | s :: rest =>
    match applyUpdate (create_increment_operation s n) d with
    | .ok d' => applyStatOps n rest d'
    | .error _ => applyStatOps n rest d

/-- The value shapes `create_increment_operation` can produce: a scalar, or
a `{total, count}` pair with `count ≥ 1` and a numeric total. -/
def valueSlotOk (V : Bson) : Prop :=
  (∃ i, V = .int32 i) ∨ (∃ q, V = .double q)
    ∨ (∃ tv c, V = .doc [("total", tv), ("count", .int32 c)] ∧ 1 ≤ c
        ∧ ((∃ i, tv = .int32 i) ∨ (∃ q, tv = .double q)))

/-- Characterization of the documents reachable from the freshly ensured
document under increment mutations for the stat name `n`. -/
def statDocOk (u k : Nat) (ns n : String) (d : BDoc) : Prop :=
  d = freshStatsDoc u k ns
  ∨ ∃ V t, d = statsEntryDoc u k ns n V t ∧ valueSlotOk V

/-- The temporal contract on the recorded event trace: every increment
mutation issued for a subject is preceded by a completed ensure step for the
same subject. -/
def orderedTrace (t : List Event) : Prop :=
  ∀ (i : Nat) (s : Subject) (m : String), t[i]? = some (Event.increment s m) →
    ∃ j : Nat, j < i ∧ t[j]? = some (Event.ensured s)

theorem splitDots_ne_nil (l : List Char) : splitDots l ≠ [] := by
  induction l with
  | nil => simp [splitDots]
  | cons c cs ih =>
    simp only [splitDots]
    split
    · simp
    · cases h : splitDots cs with
      | nil => simp
      | cons p ps => simp

theorem splitDots_append_of_no_dot (l cs : List Char) (h : ∀ c ∈ l, c ≠ '.')
    (p : List Char) (ps : List (List Char)) (hcs : splitDots cs = p :: ps) :
    splitDots (l ++ cs) = (l ++ p) :: ps := by
  induction l with
  | nil => simpa using hcs
  | cons c l' ih =>
    have hc : c ≠ '.' := h c (by simp)
    have ih' := ih (fun x hx => h x (by simp [hx]))
    simp only [List.cons_append, splitDots, if_neg hc]
    rw [List.append_eq, ih']

theorem splitDots_dot_cons (cs : List Char) :
    splitDots ('.' :: cs) = [] :: splitDots cs := by
  simp [splitDots]

theorem splitDots_no_dot (l : List Char) (h : ∀ c ∈ l, c ≠ '.') :
    splitDots l = [l] := by
  induction l with
  | nil => rfl
  | cons c cs ih =>
    have hc : c ≠ '.' := h c (by simp)
    have ih' := ih (fun x hx => h x (by simp [hx]))
    simp only [splitDots, if_neg hc, ih']

/-- The stat field paths built by `create_increment_operation` split into
exactly `["stats", n, suffix]` components when the stat name `n` contains no
path separator. -/
theorem splitKey_stats_path (n : String) (suffix : String)
    (hn : ∀ c ∈ n.data, c ≠ '.') (hs : ∀ c ∈ suffix.data, c ≠ '.') :
    splitKey ("stats." ++ n ++ ("." ++ suffix)) = ["stats", n, suffix] := by
  have hdata : ("stats." ++ n ++ ("." ++ suffix)).data
      = "stats".data ++ ('.' :: (n.data ++ ('.' :: suffix.data))) := by
    simp [String.data_append]
  have h1 : splitDots ('.' :: suffix.data) = [] :: [suffix.data] := by
    rw [splitDots_dot_cons, splitDots_no_dot suffix.data hs]
  have h2 : splitDots (n.data ++ ('.' :: suffix.data)) = (n.data ++ []) :: [suffix.data] :=
    splitDots_append_of_no_dot n.data _ hn [] [suffix.data] h1
  have h3 : splitDots ('.' :: (n.data ++ ('.' :: suffix.data)))
      = [] :: ((n.data ++ []) :: [suffix.data]) := by
    rw [splitDots_dot_cons, h2]
  have hstats : ∀ c ∈ "stats".data, c ≠ '.' := by decide
  have h4 := splitDots_append_of_no_dot "stats".data _ hstats [] _ h3
  unfold splitKey
  rw [hdata, h4]
  simp

/-- The single-component key `"username"` used by the profile `$set`. -/
theorem splitKey_username : splitKey "username" = ["username"] := by decide

/-- Definitional unfolding of `bind` runs. -/
theorem M.run_bind {α β : Type} (x : M α) (f : α → M β) (db : DB) :
    (x >>= f) db =
      match x db with
      | .ok (a, db') => f a db'
      | .error e => .error e := rfl

/-- Definitional unfolding of `pure` runs. -/
theorem M.run_pure {α : Type} (a : α) (db : DB) :
    (pure a : M α) db = .ok (a, db) := rfl

theorem lookupField_append_left {d e : BDoc} {k : String} {v : Bson}
    (h : lookupField d k = some v) : lookupField (d ++ e) k = some v := by
  induction d with
  | nil => simp [lookupField] at h
  | cons f rest ih =>
    obtain ⟨k', v'⟩ := f
    by_cases hk : k' = k
    · simp [lookupField, hk] at h ⊢
      exact h
    · simp [lookupField, hk] at h ⊢
      exact ih h

theorem lookupField_append_right {d e : BDoc} {k : String}
    (h : lookupField d k = none) : lookupField (d ++ e) k = lookupField e k := by
  induction d with
  | nil => simp
  | cons f rest ih =>
    obtain ⟨k', v'⟩ := f
    by_cases hk : k' = k
    · simp [lookupField, hk] at h
    · simp [lookupField, hk] at h ⊢
      exact ih h

theorem lookupField_setField_eq {d : BDoc} {k : String} {v w : Bson}
    (h : lookupField d k = some w) :
    lookupField (setField d k v) k = some v := by
  induction d with
  | nil => simp [lookupField] at h
  | cons f rest ih =>
    obtain ⟨k', v'⟩ := f
    by_cases hk : k' = k
    · simp [lookupField, setField, hk]
    · simp [lookupField, setField, hk] at h ⊢
      exact ih h

theorem lookupField_setField_ne {d : BDoc} {k k' : String} {v : Bson}
    (h : k' ≠ k) : lookupField (setField d k v) k' = lookupField d k' := by
  induction d with
  | nil => simp [setField]
  | cons f rest ih =>
    obtain ⟨k'', v'⟩ := f
    by_cases hk : k'' = k
    · subst hk
      simp [lookupField, setField, Ne.symm h]
    · simp [lookupField, setField, hk]
      by_cases hk' : k'' = k'
      · simp [hk']
      · simp [hk', ih]

theorem find?_append_of_none {l₁ l₂ : List BDoc} {p : BDoc → Bool}
    (h : l₁.find? p = none) : (l₁ ++ l₂).find? p = l₂.find? p := by
  rw [List.find?_append, h, Option.none_or]

theorem countMatching_append (l₁ l₂ : List BDoc) (f : BDoc) :
    countMatching (l₁ ++ l₂) f = countMatching l₁ f + countMatching l₂ f := by
  simp [countMatching, List.filter_append]

theorem countMatching_eq_zero {l : List BDoc} {f : BDoc}
    (h : ∀ d ∈ l, matchesFilter f d = false) : countMatching l f = 0 := by
  simp [countMatching, List.length_eq_zero, List.filter_eq_nil_iff]
  intro d hd
  simp [h d hd]

/-- Run-equation for `mFindFirst`. -/
theorem mFindFirst_run (c : Coll) (f : BDoc) (db : DB) :
    mFindFirst c f db = .ok ((db.coll c).find? (matchesFilter f), db) := rfl

/-- Run-equation for `mFindAll`. -/
theorem mFindAll_run (c : Coll) (f : BDoc) (db : DB) :
    mFindAll c f db = .ok ((db.coll c).filter (matchesFilter f), db) := rfl

/-- Run-equation for `emitM`. -/
theorem emitM_run (e : Event) (db : DB) :
    emitM e db = .ok ((), { db with trace := db.trace ++ [e] }) := rfl

/-- The `get_player_profile` when no document matches. -/
theorem get_player_profile_run_none {u : Nat} {db : DB}
    (h : db.players.find? (matchesFilter (profileFilter u)) = none) :
    get_player_profile u db = .ok (none, db) := by
  simp only [get_player_profile, M.run_bind, mFindFirst_run, DB.coll, h, M.run_pure]

/-- The `get_player_profile` when the first matching document decodes. -/
theorem get_player_profile_run_some {u : Nat} {db : DB} {d : BDoc} {p : PlayerProfile}
    (h : db.players.find? (matchesFilter (profileFilter u)) = some d)
    (hd : decodeProfile d = .ok p) :
    get_player_profile u db = .ok (some p, db) := by
  simp only [get_player_profile, M.run_bind, mFindFirst_run, DB.coll, h, hd, M.run_pure]

/-- The `get_player_profile` when the first matching document fails to decode. -/
theorem get_player_profile_run_err {u : Nat} {db : DB} {d : BDoc} {e : String}
    (h : db.players.find? (matchesFilter (profileFilter u)) = some d)
    (hd : decodeProfile d = .error e) :
    get_player_profile u db = .error e := by
  simp only [get_player_profile, M.run_bind, mFindFirst_run, DB.coll, h, hd, throwM]

theorem applyUpdate_set_username (d : BDoc) (un : String) :
    applyUpdate [("$set", .doc [("username", .str un)])] d = .ok (setUsername d un) := by
  simp only [applyUpdate, applySets, splitKey_username, applySetPath, setUsername]
  cases lookupField d "username" <;> simp [applySets, applyUpdate]

theorem matchesProfileFilter_lookup {u : Nat} {d : BDoc}
    (h : matchesFilter (profileFilter u) d = true) :
    lookupField d "uuid" = some (.binary u) := by
  simp only [matchesFilter, profileFilter, List.all_cons, List.all_nil, Bool.and_true] at h
  cases hl : lookupField d "uuid" with
  | none => rw [hl] at h; simp at h
  | some v =>
    rw [hl] at h
    cases v <;> simp [bsonValEq] at h
    simp [h]

theorem lookup_uuid_setUsername {d : BDoc} {u : Nat} {un : String}
    (hud : lookupField d "uuid" = some (.binary u)) :
    lookupField (setUsername d un) "uuid" = some (.binary u) := by
  unfold setUsername
  cases hl : lookupField d "username" with
  | none => exact lookupField_append_left hud
  | some v => rw [lookupField_setField_ne (by decide)]; exact hud

theorem matchesProfileFilter_setUsername {d : BDoc} {u : Nat} {un : String}
    (hud : lookupField d "uuid" = some (.binary u)) :
    matchesFilter (profileFilter u) (setUsername d un) = true := by
  simp [matchesFilter, profileFilter, lookup_uuid_setUsername hud, bsonValEq]

theorem decodeProfile_setUsername {d : BDoc} {u : Nat} {un : String}
    (hud : lookupField d "uuid" = some (.binary u)) :
    decodeProfile (setUsername d un) = .ok ⟨u, some un⟩ := by
  unfold decodeProfile
  rw [lookup_uuid_setUsername hud]
  unfold setUsername
  cases hl : lookupField d "username" with
  | none => rw [lookupField_append_right hl]; rfl
  | some v => rw [lookupField_setField_eq hl]

theorem updateFirstDoc_username (l : List BDoc) (u : Nat) (un : String) (d : BDoc)
    (hfind : l.find? (matchesFilter (profileFilter u)) = some d) :
    ∃ l', updateFirstDoc l (matchesFilter (profileFilter u))
            [("$set", .doc [("username", .str un)])] = .ok l'
      ∧ l'.find? (matchesFilter (profileFilter u)) = some (setUsername d un) := by
  induction l with
  | nil => simp at hfind
  | cons hd tl ih =>
    cases hp : matchesFilter (profileFilter u) hd with
    | true =>
      rw [List.find?_cons, hp] at hfind
      simp at hfind
      subst hfind
      refine ⟨setUsername hd un :: tl, ?_, ?_⟩
      · simp [updateFirstDoc, hp, applyUpdate_set_username]
      · have hud := matchesProfileFilter_lookup hp
        rw [List.find?_cons, matchesProfileFilter_setUsername hud]
    | false =>
      rw [List.find?_cons, hp] at hfind
      simp at hfind
      obtain ⟨tl', htl, hfind'⟩ := ih hfind
      refine ⟨hd :: tl', ?_, ?_⟩
      · simp [updateFirstDoc, hp, htl]
      · rw [List.find?_cons, hp]
        exact hfind'

/-- The `update_player_profile` when no profile exists: inserts a fresh profile
document and returns the new profile. -/
theorem update_player_profile_run_absent {u : Nat} {un : Option String} {db : DB}
    (h : db.players.find? (matchesFilter (profileFilter u)) = none) :
    update_player_profile u un db =
      .ok (⟨u, un⟩,
        { db with
            players := db.players ++ [("_id", .objectId db.nextId) :: encodeProfile ⟨u, un⟩],
            nextId := db.nextId + 1 }) := by
  simp only [update_player_profile, M.run_bind, get_player_profile_run_none h,
    mInsertOne, DB.coll, DB.setColl, M.run_pure, encodeProfile, lookupField]
  simp [lookupField]

/-- The `update_player_profile` with no supplied username on an existing,
decodable profile: no mutation, returns the stored profile. -/
theorem update_player_profile_run_keep {u : Nat} {un : Option String} {db : DB}
    {d : BDoc} {p : PlayerProfile}
    (h : db.players.find? (matchesFilter (profileFilter u)) = some d)
    (hd : decodeProfile d = .ok p)
    (hkeep : un = none ∨ p.username = none ∨ un = p.username) :
    update_player_profile u un db = .ok (p, db) := by
  have hrun := get_player_profile_run_some h hd
  rcases hkeep with h1 | h1 | h1
  · subst h1
    simp only [update_player_profile, M.run_bind, hrun, M.run_pure]
  · cases un with
    | none => simp only [update_player_profile, M.run_bind, hrun, M.run_pure]
    | some un' =>
      simp only [update_player_profile, M.run_bind, hrun, h1, M.run_pure]
  · cases un with
    | none => simp only [update_player_profile, M.run_bind, hrun, M.run_pure]
    | some un' =>
      cases hpu : p.username with
      | none => simp only [update_player_profile, M.run_bind, hrun, hpu, M.run_pure]
      | some pu =>
        rw [hpu] at h1
        simp at h1
        subst h1
        simp only [update_player_profile, M.run_bind, hrun, hpu]
        simp [M.run_pure]

/-- The `update_player_profile` with a supplied username differing from the
stored one: issues the `$set` and returns the updated profile. -/
theorem update_player_profile_run_diff {u : Nat} {un pu : String} {db : DB}
    {d : BDoc} {p : PlayerProfile}
    (h : db.players.find? (matchesFilter (profileFilter u)) = some d)
    (hd : decodeProfile d = .ok p)
    (hpu : p.username = some pu) (hne : un ≠ pu) :
    ∃ l', updateFirstDoc db.players (matchesFilter (profileFilter u))
            [("$set", .doc [("username", .str un)])] = .ok l'
      ∧ update_player_profile u (some un) db =
          .ok ({ p with username := some un }, { db with players := l' })
      ∧ l'.find? (matchesFilter (profileFilter u)) = some (setUsername d un) := by
  obtain ⟨l', hl', hfind'⟩ := updateFirstDoc_username db.players u un d h
  refine ⟨l', hl', ?_, hfind'⟩
  have hrun := get_player_profile_run_some h hd
  simp only [update_player_profile, M.run_bind, hrun, hpu, if_neg (by simp [hne] : ¬ un = pu)]
  simp only [ne_eq, hne, not_false_eq_true, if_true, M.run_bind, mUpdateOne, DB.coll, hl',
    DB.setColl, M.run_pure]

theorem decodeProfile_uuid {d : BDoc} {p : PlayerProfile}
    (h : decodeProfile d = .ok p) :
    lookupField d "uuid" = some (.binary p.uuid) := by
  unfold decodeProfile at h
  cases hu : lookupField d "uuid" with
  | none => rw [hu] at h; exact absurd h (by simp)
  | some v =>
    rw [hu] at h
    cases v with
    | binary u' =>
      cases hn : lookupField d "username" with
      | none => rw [hn] at h; simp at h; rw [← h]
      | some w =>
        rw [hn] at h
        cases w with
        | int32 i => simp at h
        | double q => simp at h
        | binary b => simp at h
        | objectId n => simp at h
        | doc f => simp at h
        | str s => simp at h; rw [← h]
        | null => simp at h; rw [← h]
    | int32 i => simp at h
    | double q => simp at h
    | str s => simp at h
    | objectId n => simp at h
    | null => simp at h
    | doc f => simp at h

theorem decodeProfile_insert_roundtrip (k : Nat) (p : PlayerProfile) :
    decodeProfile (("_id", .objectId k) :: encodeProfile p) = .ok p := by
  cases p with
  | mk uuid username =>
    cases username <;> simp [decodeProfile, encodeProfile, lookupField]

theorem matchesProfileFilter_insert (k : Nat) (u : Nat) (un : Option String) :
    matchesFilter (profileFilter u) (("_id", .objectId k) :: encodeProfile ⟨u, un⟩) = true := by
  simp [matchesFilter, profileFilter, encodeProfile, lookupField, bsonValEq]

theorem decodePlayerGameStats_insert_roundtrip (k : Nat) (u : Nat) (ns : String) :
    decodePlayerGameStats (("_id", .objectId k) :: encodePlayerGameStats ⟨u, ns, []⟩)
      = .ok ⟨u, ns, []⟩ := by
  simp [decodePlayerGameStats, encodePlayerGameStats, encodeStatsMap, lookupField,
    decodeStatsMap]

theorem matchesPlayerStatsFilter_insert (k : Nat) (u : Nat) (ns : String)
    (stats : List (String × GameStat)) :
    matchesFilter (playerStatsFilter u ns)
      (("_id", .objectId k) :: encodePlayerGameStats ⟨u, ns, stats⟩) = true := by
  simp [matchesFilter, playerStatsFilter, encodePlayerGameStats, lookupField, bsonValEq]

theorem decodeGlobalGameStats_insert_roundtrip (k : Nat) (ns : String) :
    decodeGlobalGameStats (("_id", .objectId k) :: encodeGlobalGameStats ⟨ns, []⟩)
      = .ok ⟨ns, []⟩ := by
  simp [decodeGlobalGameStats, encodeGlobalGameStats, encodeStatsMap, lookupField,
    decodeStatsMap]

theorem matchesGlobalStatsFilter_insert (k : Nat) (ns : String)
    (stats : List (String × GameStat)) :
    matchesFilter (globalStatsFilter ns)
      (("_id", .objectId k) :: encodeGlobalGameStats ⟨ns, stats⟩) = true := by
  simp [matchesFilter, globalStatsFilter, encodeGlobalGameStats, lookupField, bsonValEq]

/-- The `update_player_profile` when the stored profile fails to decode. -/
theorem update_player_profile_run_err {u : Nat} {un : Option String} {db : DB}
    {d : BDoc} {e : String}
    (h : db.players.find? (matchesFilter (profileFilter u)) = some d)
    (hd : decodeProfile d = .error e) :
    update_player_profile u un db = .error e := by
  simp only [update_player_profile, M.run_bind, get_player_profile_run_err h hd]

/-- Any successful `update_player_profile` leaves the stats, global and
quarantine collections and the trace untouched, and afterwards the first
matching profile document decodes to the returned profile. -/
theorem update_player_profile_state {u : Nat} {un : Option String} {db : DB}
    {p : PlayerProfile} {db' : DB}
    (h : update_player_profile u un db = .ok (p, db')) :
    db'.playerStats = db.playerStats ∧ db'.globalStats = db.globalStats ∧
    db'.corruptStats = db.corruptStats ∧ db'.trace = db.trace ∧
    ∃ d, db'.players.find? (matchesFilter (profileFilter u)) = some d
      ∧ decodeProfile d = .ok p := by
  cases hf : db.players.find? (matchesFilter (profileFilter u)) with
  | none =>
    rw [update_player_profile_run_absent hf] at h
    obtain ⟨hp, hdb⟩ : p = ⟨u, un⟩ ∧ db' = _ := by
      constructor <;> [exact (by injection h with h1; injection h1 with h2 h3; exact h2.symm);
        exact (by injection h with h1; injection h1 with h2 h3; exact h3.symm)]
    subst hp hdb
    refine ⟨rfl, rfl, rfl, rfl, ("_id", .objectId db.nextId) :: encodeProfile ⟨u, un⟩, ?_, ?_⟩
    · rw [find?_append_of_none hf, List.find?_cons, matchesProfileFilter_insert]
    · exact decodeProfile_insert_roundtrip _ _
  | some d =>
    cases hd : decodeProfile d with
    | error e => rw [update_player_profile_run_err hf hd] at h; cases h
    | ok q =>
      have huid : lookupField d "uuid" = some (.binary u) :=
        matchesProfileFilter_lookup (List.find?_some hf)
      have hqu : q.uuid = u := by
        have h2 := decodeProfile_uuid hd
        rw [huid] at h2
        have h3 : u = q.uuid := by simpa using h2
        exact h3.symm
      cases un with
      | none =>
        rw [update_player_profile_run_keep hf hd (Or.inl rfl)] at h
        injection h with h1
        injection h1 with h2 h3
        subst h2 h3
        exact ⟨rfl, rfl, rfl, rfl, d, hf, hd⟩
      | some un' =>
        cases hqname : q.username with
        | none =>
          rw [update_player_profile_run_keep hf hd (Or.inr (Or.inl hqname))] at h
          injection h with h1
          injection h1 with h2 h3
          subst h2 h3
          exact ⟨rfl, rfl, rfl, rfl, d, hf, hd⟩
        | some pu =>
          by_cases hne : un' = pu
          · subst hne
            rw [update_player_profile_run_keep hf hd (Or.inr (Or.inr hqname.symm))] at h
            injection h with h1
            injection h1 with h2 h3
            subst h2 h3
            exact ⟨rfl, rfl, rfl, rfl, d, hf, hd⟩
          · obtain ⟨l', hl', hrun, hfind'⟩ :=
              update_player_profile_run_diff hf hd hqname hne
            rw [hrun] at h
            injection h with h1
            injection h1 with h2 h3
            subst h2 h3
            refine ⟨rfl, rfl, rfl, rfl, setUsername d un', hfind', ?_⟩
            rw [decodeProfile_setUsername huid]
            cases q with
            | mk quuid qusername =>
              simp at hqu
              subst hqu
              rfl

/-- The `ensure_player_stats_document` when no stats document exists after the
profile step: inserts a fresh empty-stats document. -/
theorem ensure_player_run_insert {u : Nat} {ns : String} {db : DB}
    {p : PlayerProfile} {db1 : DB}
    (h1 : update_player_profile u none db = .ok (p, db1))
    (h2 : db1.playerStats.find? (matchesFilter (playerStatsFilter u ns)) = none) :
    ensure_player_stats_document u ns db =
      .ok ((), ⟨db1.players,
        db1.playerStats ++ [("_id", .objectId db1.nextId) :: encodePlayerGameStats ⟨u, ns, []⟩],
        db1.globalStats, db1.corruptStats, db1.nextId + 1,
        db1.trace ++ [.ensured (.player u ns)]⟩) := by
  simp only [ensure_player_stats_document, M.run_bind, h1, mFindFirst_run, DB.coll, h2,
    M.run_pure, if_true, mInsertOne, encodePlayerGameStats, lookupField, emitM_run,
    DB.setColl]
  simp [lookupField, encodeStatsMap]

/-- The `ensure_player_stats_document` when the stats document exists and
decodes: nothing but the trace changes. -/
theorem ensure_player_run_exists {u : Nat} {ns : String} {db : DB}
    {p : PlayerProfile} {db1 : DB} {d : BDoc} {s : PlayerGameStats}
    (h1 : update_player_profile u none db = .ok (p, db1))
    (h2 : db1.playerStats.find? (matchesFilter (playerStatsFilter u ns)) = some d)
    (h3 : decodePlayerGameStats d = .ok s) :
    ensure_player_stats_document u ns db =
      .ok ((), { db1 with trace := db1.trace ++ [.ensured (.player u ns)] }) := by
  simp only [ensure_player_stats_document, M.run_bind, h1, mFindFirst_run, DB.coll, h2, h3,
    M.run_pure, emitM_run]
  simp [M.run_bind, M.run_pure, emitM_run]

/-- The `ensure_player_stats_document` when the stats document exists but fails
to decode: the raw document is quarantined (with its `_id` intact), the
original is deleted by `_id`, and a fresh empty-stats document is inserted. -/
theorem ensure_player_run_corrupt {u : Nat} {ns : String} {db : DB}
    {p : PlayerProfile} {db1 : DB} {d : BDoc} {e : String} {idv : Bson}
    (h1 : update_player_profile u none db = .ok (p, db1))
    (h2 : db1.playerStats.find? (matchesFilter (playerStatsFilter u ns)) = some d)
    (h3 : decodePlayerGameStats d = .error e)
    (h4 : lookupField d "_id" = some idv) :
    ensure_player_stats_document u ns db =
      .ok ((), ⟨db1.players,
        (db1.playerStats.eraseP (matchesFilter [("_id", idv)]))
          ++ [("_id", .objectId (db1.nextId + 1)) :: encodePlayerGameStats ⟨u, ns, []⟩],
        db1.globalStats, db1.corruptStats ++ [d], db1.nextId + 2,
        db1.trace ++ [.ensured (.player u ns)]⟩) := by
  simp only [ensure_player_stats_document, M.run_bind, h1, mFindFirst_run, DB.coll, h2, h3,
    M.run_pure, handle_broken_player_stats_document, handle_broken_document,
    mInsertOne, h4, Option.isSome_some, if_true, DB.setColl, mDeleteOne, emitM_run]
  simp only [encodePlayerGameStats, encodeStatsMap, lookupField, List.map_nil]
  simp [lookupField]

/-- The `ensure_global_stats_document` when no global document exists. -/
theorem ensure_global_run_insert {ns : String} {db : DB}
    (h2 : db.globalStats.find? (matchesFilter (globalStatsFilter ns)) = none) :
    ensure_global_stats_document ns db =
      .ok ((), ⟨db.players, db.playerStats,
        db.globalStats ++ [("_id", .objectId db.nextId) :: encodeGlobalGameStats ⟨ns, []⟩],
        db.corruptStats, db.nextId + 1,
        db.trace ++ [.ensured (.global ns)]⟩) := by
  simp only [ensure_global_stats_document, M.run_bind, mFindFirst_run, DB.coll, h2,
    M.run_pure, if_true, mInsertOne, encodeGlobalGameStats, lookupField, emitM_run,
    DB.setColl]
  simp [lookupField, encodeStatsMap]

/-- The `ensure_global_stats_document` when the global document exists and
decodes. -/
theorem ensure_global_run_exists {ns : String} {db : DB} {d : BDoc} {s : GlobalGameStats}
    (h2 : db.globalStats.find? (matchesFilter (globalStatsFilter ns)) = some d)
    (h3 : decodeGlobalGameStats d = .ok s) :
    ensure_global_stats_document ns db =
      .ok ((), { db with trace := db.trace ++ [.ensured (.global ns)] }) := by
  simp only [ensure_global_stats_document, M.run_bind, mFindFirst_run, DB.coll, h2, h3,
    M.run_pure, emitM_run]
  simp [M.run_bind, M.run_pure, emitM_run]

/-- C2: for every player id and supplied username, `update_player_profile`
(ensureProfile) creates the profile with the supplied username when none
exists and returns it; when a profile exists and a supplied username differs
from the stored one, it updates the stored username and returns the updated
profile; otherwise it returns the existing profile unchanged, issuing no
stored mutation (in particular a same-name call leaves the store state
exactly as it was). -/
theorem c2_update_player_profile_contract (u : Nat) (un : Option String) (db : DB) :
    (db.players.find? (matchesFilter (profileFilter u)) = none →
      ∃ db', update_player_profile u un db = .ok (⟨u, un⟩, db')
        ∧ ∃ d, db'.players.find? (matchesFilter (profileFilter u)) = some d
            ∧ decodeProfile d = .ok ⟨u, un⟩) ∧
    (∀ d p un' pu, db.players.find? (matchesFilter (profileFilter u)) = some d →
      decodeProfile d = .ok p → un = some un' → p.username = some pu → un' ≠ pu →
      ∃ db', update_player_profile u un db = .ok ({ p with username := some un' }, db')
        ∧ ∃ d', db'.players.find? (matchesFilter (profileFilter u)) = some d'
            ∧ decodeProfile d' = .ok ⟨u, some un'⟩) ∧
    (∀ d p, db.players.find? (matchesFilter (profileFilter u)) = some d →
      decodeProfile d = .ok p → (un = none ∨ p.username = none ∨ un = p.username) →
      update_player_profile u un db = .ok (p, db)) := by
  refine ⟨?_, ?_, ?_⟩
  · intro h
    have hrun : update_player_profile u un db
        = .ok (⟨u, un⟩,
          { db with
              players := db.players
                ++ [("_id", .objectId db.nextId) :: encodeProfile ⟨u, un⟩],
              nextId := db.nextId + 1 }) :=
      update_player_profile_run_absent h
    refine ⟨_, hrun, ?_⟩
    obtain ⟨-, -, -, -, d, hfind, hdec⟩ := update_player_profile_state hrun
    exact ⟨d, hfind, hdec⟩
  · intro d p un' pu hfind hdec hun hpu hne
    subst hun
    obtain ⟨l', -, hrun, hfind'⟩ := update_player_profile_run_diff hfind hdec hpu hne
    have huid : lookupField d "uuid" = some (.binary u) :=
      matchesProfileFilter_lookup (List.find?_some hfind)
    exact ⟨_, hrun, setUsername d un', hfind', decodeProfile_setUsername huid⟩
  · intro d p hfind hdec hkeep
    exact update_player_profile_run_keep hfind hdec hkeep

/-- C2 witness: on a store holding the profile `{uuid: 1, username: "alice"}`,
a same-name call returns the stored profile and leaves the state unchanged. -/
theorem c2_update_player_profile_contract_witness :
    update_player_profile 1 (some "alice")
        ⟨[[("_id", .objectId 0), ("uuid", .binary 1), ("username", .str "alice")]],
          [], [], [], 1, []⟩
      = .ok (⟨1, some "alice"⟩,
        ⟨[[("_id", .objectId 0), ("uuid", .binary 1), ("username", .str "alice")]],
          [], [], [], 1, []⟩) :=
  (c2_update_player_profile_contract 1 (some "alice")
      ⟨[[("_id", .objectId 0), ("uuid", .binary 1), ("username", .str "alice")]],
        [], [], [], 1, []⟩).2.2
    [("_id", .objectId 0), ("uuid", .binary 1), ("username", .str "alice")]
    ⟨1, some "alice"⟩ rfl rfl (Or.inr (Or.inr rfl))

theorem ensure_player_twice {u : Nat} {ns : String} {db : DB} {p : PlayerProfile} {db1 : DB}
    (hno : ∀ dd ∈ db.playerStats, matchesFilter (playerStatsFilter u ns) dd = false)
    (h1 : update_player_profile u none db = .ok (p, db1)) :
    ∃ dbA, ensure_player_stats_document u ns db = .ok ((), dbA)
      ∧ countMatching dbA.playerStats (playerStatsFilter u ns) = 1
      ∧ ∃ db2, ensure_player_stats_document u ns dbA = .ok ((), db2)
        ∧ db2.playerStats = dbA.playerStats
        ∧ countMatching db2.playerStats (playerStatsFilter u ns) = 1 := by
  obtain ⟨hps, hgs, hcs, htr, dprof, hpf, hpd⟩ := update_player_profile_state h1
  have hfnone : db1.playerStats.find? (matchesFilter (playerStatsFilter u ns)) = none := by
    rw [hps]
    exact List.find?_eq_none.mpr (fun x hx => by simp [hno x hx])
  have hrunA := ensure_player_run_insert h1 hfnone
  have hmatch := matchesPlayerStatsFilter_insert db1.nextId u ns []
  have hcount0 : countMatching db1.playerStats (playerStatsFilter u ns) = 0 := by
    rw [hps]; exact countMatching_eq_zero hno
  have hcount1 : countMatching
      (db1.playerStats ++ [("_id", .objectId db1.nextId) :: encodePlayerGameStats ⟨u, ns, []⟩])
      (playerStatsFilter u ns) = 1 := by
    rw [countMatching_append, hcount0]
    simp [countMatching, List.filter_cons, hmatch]
  refine ⟨_, hrunA, hcount1, ?_⟩
  have h1' : update_player_profile u none
      (⟨db1.players,
        db1.playerStats ++ [("_id", .objectId db1.nextId) :: encodePlayerGameStats ⟨u, ns, []⟩],
        db1.globalStats, db1.corruptStats, db1.nextId + 1,
        db1.trace ++ [.ensured (.player u ns)]⟩ : DB) = .ok (p, _) :=
    update_player_profile_run_keep hpf hpd (Or.inl rfl)
  have hf2 : (db1.playerStats
      ++ [("_id", .objectId db1.nextId) :: encodePlayerGameStats ⟨u, ns, []⟩]).find?
        (matchesFilter (playerStatsFilter u ns))
      = some (("_id", .objectId db1.nextId) :: encodePlayerGameStats ⟨u, ns, []⟩) := by
    rw [find?_append_of_none hfnone, List.find?_cons, hmatch]
  have hd2 := decodePlayerGameStats_insert_roundtrip db1.nextId u ns
  have hrun2 := ensure_player_run_exists h1' hf2 hd2
  exact ⟨_, hrun2, rfl, hcount1⟩

/-- C5: for each subject kind, when no stats document for the subject exists,
one `ensure` call creates exactly one document for the subject, and a second
call in sequence succeeds without inserting anything (the stats collection is
left exactly as after the first call), so exactly one document exists in
total. -/
theorem c5_ensure_stats_document_idempotent (u : Nat) (ns : String) (db db1 : DB) :
    ((∀ dd ∈ db.playerStats, matchesFilter (playerStatsFilter u ns) dd = false) →
      ensure_player_stats_document u ns db = .ok ((), db1) →
      countMatching db1.playerStats (playerStatsFilter u ns) = 1
      ∧ ∃ db2, ensure_player_stats_document u ns db1 = .ok ((), db2)
        ∧ db2.playerStats = db1.playerStats
        ∧ countMatching db2.playerStats (playerStatsFilter u ns) = 1) ∧
    ((∀ dd ∈ db.globalStats, matchesFilter (globalStatsFilter ns) dd = false) →
      ∃ dbA, ensure_global_stats_document ns db = .ok ((), dbA)
        ∧ countMatching dbA.globalStats (globalStatsFilter ns) = 1
        ∧ ∃ db2, ensure_global_stats_document ns dbA = .ok ((), db2)
          ∧ db2.globalStats = dbA.globalStats
          ∧ countMatching db2.globalStats (globalStatsFilter ns) = 1) := by
  constructor
  · intro hno hrun
    cases hupp : update_player_profile u none db with
    | error e =>
      simp only [ensure_player_stats_document, M.run_bind, hupp] at hrun
      simp at hrun
    | ok pr =>
      obtain ⟨p, db1'⟩ := pr
      obtain ⟨dbA, hA, hc1, db2, h2, heq, hc2⟩ := ensure_player_twice hno hupp
      rw [hrun] at hA
      simp only [Except.ok.injEq, Prod.mk.injEq, true_and] at hA
      subst hA
      exact ⟨hc1, db2, h2, heq, hc2⟩
  · intro hno
    have hfnone : db.globalStats.find? (matchesFilter (globalStatsFilter ns)) = none :=
      List.find?_eq_none.mpr (fun x hx => by simp [hno x hx])
    have hrunA := ensure_global_run_insert hfnone
    have hmatch := matchesGlobalStatsFilter_insert db.nextId ns []
    have hcount0 : countMatching db.globalStats (globalStatsFilter ns) = 0 :=
      countMatching_eq_zero hno
    have hcount1 : countMatching
        (db.globalStats ++ [("_id", .objectId db.nextId) :: encodeGlobalGameStats ⟨ns, []⟩])
        (globalStatsFilter ns) = 1 := by
      rw [countMatching_append, hcount0]
      simp [countMatching, List.filter_cons, hmatch]
    refine ⟨_, hrunA, hcount1, ?_⟩
    have hf2 : (db.globalStats
        ++ [("_id", .objectId db.nextId) :: encodeGlobalGameStats ⟨ns, []⟩]).find?
          (matchesFilter (globalStatsFilter ns))
        = some (("_id", .objectId db.nextId) :: encodeGlobalGameStats ⟨ns, []⟩) := by
      rw [find?_append_of_none hfnone, List.find?_cons, hmatch]
    have hd2 := decodeGlobalGameStats_insert_roundtrip db.nextId ns
    exact ⟨_, ensure_global_run_exists hf2 hd2, rfl, hcount1⟩

/-- C5 witness: from an empty store, two global ensure calls for namespace
`"ffa"` leave exactly one global stats document. -/
theorem c5_ensure_stats_document_idempotent_witness :
    ∃ dbA, ensure_global_stats_document "ffa" ⟨[], [], [], [], 0, []⟩ = .ok ((), dbA)
      ∧ countMatching dbA.globalStats (globalStatsFilter "ffa") = 1
      ∧ ∃ db2, ensure_global_stats_document "ffa" dbA = .ok ((), db2)
        ∧ db2.globalStats = dbA.globalStats
        ∧ countMatching db2.globalStats (globalStatsFilter "ffa") = 1 :=
  (c5_ensure_stats_document_idempotent 0 "ffa" ⟨[], [], [], [], 0, []⟩
      ⟨[], [], [], [], 0, []⟩).2
    (by intro dd hdd; simp at hdd)

/-- C9: querying stats for a player with no profile record yields the
explicit absence signal `none`; querying a known player (profile present and
decodable) yields `some` response even when no stats exist under the
requested namespace — the empty response map when no document exists, and a
map sending the namespace to an empty stats map when only the ensured
empty-stats document exists. -/
theorem c9_get_player_stats_notfound_vs_empty (u : Nat) (ns : String) (db : DB) :
    ((∀ d ∈ db.players, matchesFilter (profileFilter u) d = false) →
      get_player_stats u (some ns) db = .ok (none, db)) ∧
    (∀ dprof p, db.players.find? (matchesFilter (profileFilter u)) = some dprof →
      decodeProfile dprof = .ok p →
      ((∀ d ∈ db.playerStats, matchesFilter (playerStatsFilter u ns) d = false) →
        get_player_stats u (some ns) db = .ok (some [], db)) ∧
      (∀ k, db.playerStats.filter (matchesFilter (playerStatsFilter u ns))
          = [("_id", .objectId k) :: encodePlayerGameStats ⟨u, ns, []⟩] →
        get_player_stats u (some ns) db = .ok (some [(ns, [])], db))) := by
  constructor
  · intro hno
    have hf : db.players.find? (matchesFilter (profileFilter u)) = none :=
      List.find?_eq_none.mpr (fun x hx => by simp [hno x hx])
    simp only [get_player_stats, M.run_bind, get_player_profile_run_none hf, M.run_pure]
  · intro dprof p hfind hdec
    have hprof := get_player_profile_run_some hfind hdec
    constructor
    · intro hno
      have hfilter : db.playerStats.filter (matchesFilter (playerStatsFilter u ns)) = [] :=
        List.filter_eq_nil_iff.mpr (fun x hx => by simp [hno x hx])
      simp only [get_player_stats, M.run_bind, hprof, mFindAll_run, DB.coll, hfilter,
        buildStatsResponse, M.run_pure]
    · intro k hfilter
      have hdecdoc := decodePlayerGameStats_insert_roundtrip k u ns
      simp only [get_player_stats, M.run_bind, hprof, mFindAll_run, DB.coll, hfilter,
        buildStatsResponse, hdecdoc, M.run_pure, insertReplace, List.map_nil]

/-- C9 witness: on a store holding a profile for player 1 and the ensured
empty stats document under namespace `"ffa"`, the query returns the map
sending `"ffa"` to the empty stats map; player 2 (no profile) gets `none`. -/
theorem c9_get_player_stats_notfound_vs_empty_witness :
    get_player_stats 1 (some "ffa")
        ⟨[[("_id", .objectId 0), ("uuid", .binary 1), ("username", .null)]],
          [[("_id", .objectId 1), ("uuid", .binary 1), ("namespace", .str "ffa"),
            ("stats", .doc [])]],
          [], [], 2, []⟩
      = .ok (some [("ffa", [])],
        ⟨[[("_id", .objectId 0), ("uuid", .binary 1), ("username", .null)]],
          [[("_id", .objectId 1), ("uuid", .binary 1), ("namespace", .str "ffa"),
            ("stats", .doc [])]],
          [], [], 2, []⟩) :=
  ((c9_get_player_stats_notfound_vs_empty 1 "ffa"
      ⟨[[("_id", .objectId 0), ("uuid", .binary 1), ("username", .null)]],
        [[("_id", .objectId 1), ("uuid", .binary 1), ("namespace", .str "ffa"),
          ("stats", .doc [])]],
        [], [], 2, []⟩).2
    [("_id", .objectId 0), ("uuid", .binary 1), ("username", .null)]
    ⟨1, none⟩ rfl rfl).2 1 rfl

theorem eraseP_append_cons_of_false {l1 l2 : List BDoc} {a : BDoc} {p : BDoc → Bool}
    (h1 : ∀ x ∈ l1, p x = false) (ha : p a = true) :
    (l1 ++ a :: l2).eraseP p = l1 ++ l2 := by
  induction l1 with
  | nil => simp [List.eraseP_cons, ha]
  | cons b bs ih =>
    have hb := h1 b (by simp)
    simp [List.eraseP_cons, hb, ih (fun x hx => h1 x (by simp [hx]))]

/-- C3: the record that `handle_broken_document` actually inserts into the
quarantine collection is the original raw document, with its original `_id`
still present; the `_id`-stripped copy that the function computes (and that
its own comment says is inserted) is discarded.  Evaluated at a concrete
corrupt document with `_id = ObjectId(7)`. -/
theorem c3_quarantine_keeps_original_id :
    handle_broken_document "decode error"
        [("_id", .objectId 7), ("uuid", .binary 1), ("namespace", .str "ffa"),
         ("stats", .str "oops")] "ffa" false
        ⟨[], [], [], [], 8, []⟩
      = .ok ((), ⟨[], [], [],
          [[("_id", .objectId 7), ("uuid", .binary 1), ("namespace", .str "ffa"),
            ("stats", .str "oops")]], 9, []⟩)
    ∧ removeField
        [("_id", .objectId 7), ("uuid", .binary 1), ("namespace", .str "ffa"),
         ("stats", .str "oops")] "_id"
      = [("uuid", .binary 1), ("namespace", .str "ffa"), ("stats", .str "oops")] :=
  ⟨rfl, rfl⟩

/-- C6: when the stats document stored for a subject fails to decode, a
single `ensure` call succeeds, quarantines the raw document, and leaves
exactly one stats document for the subject — the freshly inserted one with an
empty stats mapping — and exactly one quarantine record holding the original
raw content. -/
theorem c6_corrupt_document_recovery (u : Nat) (ns : String) (db db1 : DB)
    (l1 l2 : List BDoc) (bad : BDoc) (e : String) (j : Nat) (p : PlayerProfile)
    (hsplit : db.playerStats = l1 ++ bad :: l2)
    (hl1 : ∀ d ∈ l1, matchesFilter (playerStatsFilter u ns) d = false)
    (hbad : matchesFilter (playerStatsFilter u ns) bad = true)
    (hl2 : ∀ d ∈ l2, matchesFilter (playerStatsFilter u ns) d = false)
    (hdec : decodePlayerGameStats bad = .error e)
    (hid : lookupField bad "_id" = some (.objectId j))
    (hidl1 : ∀ d ∈ l1, matchesFilter [("_id", .objectId j)] d = false)
    (hq0 : db.corruptStats = [])
    (h1 : update_player_profile u none db = .ok (p, db1)) :
    ∃ db2, ensure_player_stats_document u ns db = .ok ((), db2)
      ∧ countMatching db2.playerStats (playerStatsFilter u ns) = 1
      ∧ (∃ k, db2.playerStats.filter (matchesFilter (playerStatsFilter u ns))
           = [("_id", .objectId k) :: encodePlayerGameStats ⟨u, ns, []⟩])
      ∧ db2.corruptStats = [bad] := by
  obtain ⟨hps, hgs, hcs, htr, dprof, hpf, hpd⟩ := update_player_profile_state h1
  have hl1none : l1.find? (matchesFilter (playerStatsFilter u ns)) = none :=
    List.find?_eq_none.mpr (fun x hx => by simp [hl1 x hx])
  have hfind : db1.playerStats.find? (matchesFilter (playerStatsFilter u ns)) = some bad := by
    rw [hps, hsplit, find?_append_of_none hl1none, List.find?_cons, hbad]
  have hrun := ensure_player_run_corrupt h1 hfind hdec hid
  have hbadid : matchesFilter [("_id", .objectId j)] bad = true := by
    simp [matchesFilter, hid, bsonValEq]
  have herase : db1.playerStats.eraseP (matchesFilter [("_id", .objectId j)]) = l1 ++ l2 := by
    rw [hps, hsplit]
    exact eraseP_append_cons_of_false hidl1 hbadid
  refine ⟨_, hrun, ?_, ?_, ?_⟩
  · rw [herase, countMatching_append, countMatching_append,
      countMatching_eq_zero hl1, countMatching_eq_zero hl2]
    simp [countMatching, List.filter_cons, matchesPlayerStatsFilter_insert]
  · refine ⟨db1.nextId + 1, ?_⟩
    rw [herase, List.filter_append, List.filter_append,
      List.filter_eq_nil_iff.mpr (fun x hx => by simp [hl1 x hx]),
      List.filter_eq_nil_iff.mpr (fun x hx => by simp [hl2 x hx])]
    simp [List.filter_cons, matchesPlayerStatsFilter_insert]
  · rw [hcs, hq0]
    rfl

/-- C6 witness: a store holding exactly one corrupt stats document for
(player 1, namespace `"ffa"`) — its `stats` field is a string — recovers to
one fresh empty-stats document plus one quarantine record holding the
original raw content. -/
theorem c6_corrupt_document_recovery_witness :
    ∃ db2, ensure_player_stats_document 1 "ffa"
        ⟨[], [[("_id", .objectId 7), ("uuid", .binary 1), ("namespace", .str "ffa"),
               ("stats", .str "oops")]], [], [], 8, []⟩
        = .ok ((), db2)
      ∧ countMatching db2.playerStats (playerStatsFilter 1 "ffa") = 1
      ∧ (∃ k, db2.playerStats.filter (matchesFilter (playerStatsFilter 1 "ffa"))
           = [("_id", .objectId k) :: encodePlayerGameStats ⟨1, "ffa", []⟩])
      ∧ db2.corruptStats
          = [[("_id", .objectId 7), ("uuid", .binary 1), ("namespace", .str "ffa"),
              ("stats", .str "oops")]] :=
  c6_corrupt_document_recovery 1 "ffa"
    ⟨[], [[("_id", .objectId 7), ("uuid", .binary 1), ("namespace", .str "ffa"),
           ("stats", .str "oops")]], [], [], 8, []⟩
    ⟨[[("_id", .objectId 8), ("uuid", .binary 1), ("username", .null)]],
      [[("_id", .objectId 7), ("uuid", .binary 1), ("namespace", .str "ffa"),
        ("stats", .str "oops")]], [], [], 9, []⟩
    [] []
    [("_id", .objectId 7), ("uuid", .binary 1), ("namespace", .str "ffa"),
     ("stats", .str "oops")]
    "missing or invalid field stats" 7 ⟨1, none⟩
    rfl (by intro d hd; simp at hd) rfl (by intro d hd; simp at hd)
    rfl rfl (by intro d hd; simp at hd) rfl rfl

theorem splitKey_stats_path2 (n s1 s2 : String)
    (hn : ∀ c ∈ n.data, c ≠ '.') (hs1 : ∀ c ∈ s1.data, c ≠ '.')
    (hs2 : ∀ c ∈ s2.data, c ≠ '.') :
    splitKey ("stats." ++ n ++ ("." ++ s1) ++ ("." ++ s2)) = ["stats", n, s1, s2] := by
  have hdata : ("stats." ++ n ++ ("." ++ s1) ++ ("." ++ s2)).data
      = "stats".data ++ ('.' :: (n.data ++ ('.' :: (s1.data ++ ('.' :: s2.data))))) := by
    simp [String.data_append]
  have h1 : splitDots ('.' :: s2.data) = [] :: [s2.data] := by
    rw [splitDots_dot_cons, splitDots_no_dot s2.data hs2]
  have h2 : splitDots (s1.data ++ ('.' :: s2.data)) = (s1.data ++ []) :: [s2.data] :=
    splitDots_append_of_no_dot s1.data _ hs1 [] [s2.data] h1
  have h3 : splitDots ('.' :: (s1.data ++ ('.' :: s2.data)))
      = [] :: ((s1.data ++ []) :: [s2.data]) := by
    rw [splitDots_dot_cons, h2]
  have h4 : splitDots (n.data ++ ('.' :: (s1.data ++ ('.' :: s2.data))))
      = (n.data ++ []) :: ((s1.data ++ []) :: [s2.data]) :=
    splitDots_append_of_no_dot n.data _ hn [] _ h3
  have h5 : splitDots ('.' :: (n.data ++ ('.' :: (s1.data ++ ('.' :: s2.data)))))
      = [] :: ((n.data ++ []) :: ((s1.data ++ []) :: [s2.data])) := by
    rw [splitDots_dot_cons, h4]
  have hstats : ∀ c ∈ "stats".data, c ≠ '.' := by decide
  have h6 := splitDots_append_of_no_dot "stats".data _ hstats [] _ h5
  unfold splitKey
  rw [hdata, h6]
  simp

theorem splitKey_value_key (n : String) (hn : ∀ c ∈ n.data, c ≠ '.') :
    splitKey ("stats." ++ n ++ ".value") = ["stats", n, "value"] := by
  have h : (".value" : String) = "." ++ "value" := by decide
  rw [h]
  exact splitKey_stats_path n "value" hn (by decide)

theorem splitKey_type_key (n : String) (hn : ∀ c ∈ n.data, c ≠ '.') :
    splitKey ("stats." ++ n ++ ".type") = ["stats", n, "type"] := by
  have h : (".type" : String) = "." ++ "type" := by decide
  rw [h]
  exact splitKey_stats_path n "type" hn (by decide)

theorem splitKey_total_key (n : String) (hn : ∀ c ∈ n.data, c ≠ '.') :
    splitKey ("stats." ++ n ++ ".value" ++ ".total") = ["stats", n, "value", "total"] := by
  have h1 : (".value" : String) = "." ++ "value" := by decide
  have h2 : (".total" : String) = "." ++ "total" := by decide
  rw [h1, h2]
  exact splitKey_stats_path2 n "value" "total" hn (by decide) (by decide)

theorem splitKey_count_key (n : String) (hn : ∀ c ∈ n.data, c ≠ '.') :
    splitKey ("stats." ++ n ++ ".value" ++ ".count") = ["stats", n, "value", "count"] := by
  have h1 : (".value" : String) = "." ++ "value" := by decide
  have h2 : (".count" : String) = "." ++ "count" := by decide
  rw [h1, h2]
  exact splitKey_stats_path2 n "value" "count" hn (by decide) (by decide)

theorem apply_intTotal_fresh (u k : Nat) (ns n : String) (hn : ∀ c ∈ n.data, c ≠ '.')
    (a : Int) :
    applyUpdate (create_increment_operation (.intTotal a) n)
      [("_id", .objectId k), ("uuid", .binary u), ("namespace", .str ns), ("stats", .doc [])]
    = .ok [("_id", .objectId k), ("uuid", .binary u), ("namespace", .str ns),
        ("stats", .doc [(n, .doc [("value", .int32 a), ("type", .str "int_total")])])] := by
  simp [create_increment_operation, applyUpdate, applyIncs, applySets,
    splitKey_value_key n hn, splitKey_type_key n hn,
    applyIncPath, applySetPath, lookupField, setField, addBson]

theorem inc_fresh_intTotal (u k : Nat) (ns n : String) (hn : ∀ c ∈ n.data, c ≠ '.')
    (a : Int) :
    applyUpdate (create_increment_operation (.intTotal a) n) (freshStatsDoc u k ns)
      = .ok (statsEntryDoc u k ns n (.int32 a) "int_total") := by
  simp [create_increment_operation, applyUpdate, applyIncs, applySets,
    splitKey_value_key n hn, splitKey_type_key n hn,
    applyIncPath, applySetPath, lookupField, setField, addBson,
    freshStatsDoc, statsEntryDoc]

theorem inc_fresh_floatTotal (u k : Nat) (ns n : String) (hn : ∀ c ∈ n.data, c ≠ '.')
    (x : Rat) :
    applyUpdate (create_increment_operation (.floatTotal x) n) (freshStatsDoc u k ns)
      = .ok (statsEntryDoc u k ns n (.double x) "float_total") := by
  simp [create_increment_operation, applyUpdate, applyIncs, applySets,
    splitKey_value_key n hn, splitKey_type_key n hn,
    applyIncPath, applySetPath, lookupField, setField, addBson,
    freshStatsDoc, statsEntryDoc]

theorem inc_fresh_intRolling (u k : Nat) (ns n : String) (hn : ∀ c ∈ n.data, c ≠ '.')
    (a : Int) :
    applyUpdate (create_increment_operation (.intRollingAverage a) n) (freshStatsDoc u k ns)
      = .ok (statsEntryDoc u k ns n
          (.doc [("total", .int32 a), ("count", .int32 1)]) "int_rolling_average") := by
  simp [create_increment_operation, applyUpdate, applyIncs, applySets,
    splitKey_total_key n hn, splitKey_count_key n hn, splitKey_type_key n hn,
    applyIncPath, applySetPath, lookupField, setField, addBson,
    freshStatsDoc, statsEntryDoc]

theorem inc_fresh_floatRolling (u k : Nat) (ns n : String) (hn : ∀ c ∈ n.data, c ≠ '.')
    (x : Rat) :
    applyUpdate (create_increment_operation (.floatRollingAverage x) n) (freshStatsDoc u k ns)
      = .ok (statsEntryDoc u k ns n
          (.doc [("total", .double x), ("count", .int32 1)]) "float_rolling_average") := by
  simp [create_increment_operation, applyUpdate, applyIncs, applySets,
    splitKey_total_key n hn, splitKey_count_key n hn, splitKey_type_key n hn,
    applyIncPath, applySetPath, lookupField, setField, addBson,
    freshStatsDoc, statsEntryDoc]

theorem inc_entry_intTotal_int (u k : Nat) (ns n t : String)
    (hn : ∀ c ∈ n.data, c ≠ '.') (v b : Int) :
    applyUpdate (create_increment_operation (.intTotal b) n)
        (statsEntryDoc u k ns n (.int32 v) t)
      = .ok (statsEntryDoc u k ns n (.int32 (v + b)) "int_total") := by
  simp [create_increment_operation, applyUpdate, applyIncs, applySets,
    splitKey_value_key n hn, splitKey_type_key n hn,
    applyIncPath, applySetPath, lookupField, setField, addBson, statsEntryDoc]

theorem inc_entry_intTotal_double (u k : Nat) (ns n t : String)
    (hn : ∀ c ∈ n.data, c ≠ '.') (q : Rat) (b : Int) :
    applyUpdate (create_increment_operation (.intTotal b) n)
        (statsEntryDoc u k ns n (.double q) t)
      = .ok (statsEntryDoc u k ns n (.double (q + (b : Rat))) "int_total") := by
  simp [create_increment_operation, applyUpdate, applyIncs, applySets,
    splitKey_value_key n hn, splitKey_type_key n hn,
    applyIncPath, applySetPath, lookupField, setField, addBson, statsEntryDoc]

theorem inc_entry_floatTotal_int (u k : Nat) (ns n t : String)
    (hn : ∀ c ∈ n.data, c ≠ '.') (v : Int) (y : Rat) :
    applyUpdate (create_increment_operation (.floatTotal y) n)
        (statsEntryDoc u k ns n (.int32 v) t)
      = .ok (statsEntryDoc u k ns n (.double ((v : Rat) + y)) "float_total") := by
  simp [create_increment_operation, applyUpdate, applyIncs, applySets,
    splitKey_value_key n hn, splitKey_type_key n hn,
    applyIncPath, applySetPath, lookupField, setField, addBson, statsEntryDoc]

theorem inc_entry_floatTotal_double (u k : Nat) (ns n t : String)
    (hn : ∀ c ∈ n.data, c ≠ '.') (q y : Rat) :
    applyUpdate (create_increment_operation (.floatTotal y) n)
        (statsEntryDoc u k ns n (.double q) t)
      = .ok (statsEntryDoc u k ns n (.double (q + y)) "float_total") := by
  simp [create_increment_operation, applyUpdate, applyIncs, applySets,
    splitKey_value_key n hn, splitKey_type_key n hn,
    applyIncPath, applySetPath, lookupField, setField, addBson, statsEntryDoc]

theorem inc_entry_intTotal_avg (u k : Nat) (ns n t : String)
    (hn : ∀ c ∈ n.data, c ≠ '.') (sub : List (String × Bson)) (b : Int) :
    applyUpdate (create_increment_operation (.intTotal b) n)
        (statsEntryDoc u k ns n (.doc sub) t)
      = .error "Cannot apply $inc to a value of non-numeric type" := by
  simp [create_increment_operation, applyUpdate, applyIncs, applySets,
    splitKey_value_key n hn, splitKey_type_key n hn,
    applyIncPath, applySetPath, lookupField, setField, addBson, statsEntryDoc]

theorem inc_entry_floatTotal_avg (u k : Nat) (ns n t : String)
    (hn : ∀ c ∈ n.data, c ≠ '.') (sub : List (String × Bson)) (y : Rat) :
    applyUpdate (create_increment_operation (.floatTotal y) n)
        (statsEntryDoc u k ns n (.doc sub) t)
      = .error "Cannot apply $inc to a value of non-numeric type" := by
  simp [create_increment_operation, applyUpdate, applyIncs, applySets,
    splitKey_value_key n hn, splitKey_type_key n hn,
    applyIncPath, applySetPath, lookupField, setField, addBson, statsEntryDoc]

theorem inc_entry_intRolling_int (u k : Nat) (ns n t : String)
    (hn : ∀ c ∈ n.data, c ≠ '.') (v b : Int) :
    applyUpdate (create_increment_operation (.intRollingAverage b) n)
        (statsEntryDoc u k ns n (.int32 v) t)
      = .error "Cannot create field in element" := by
  simp [create_increment_operation, applyUpdate, applyIncs, applySets,
    splitKey_total_key n hn, splitKey_count_key n hn, splitKey_type_key n hn,
    applyIncPath, applySetPath, lookupField, setField, addBson, statsEntryDoc]

theorem inc_entry_intRolling_double (u k : Nat) (ns n t : String)
    (hn : ∀ c ∈ n.data, c ≠ '.') (q : Rat) (b : Int) :
    applyUpdate (create_increment_operation (.intRollingAverage b) n)
        (statsEntryDoc u k ns n (.double q) t)
      = .error "Cannot create field in element" := by
  simp [create_increment_operation, applyUpdate, applyIncs, applySets,
    splitKey_total_key n hn, splitKey_count_key n hn, splitKey_type_key n hn,
    applyIncPath, applySetPath, lookupField, setField, addBson, statsEntryDoc]

theorem inc_entry_floatRolling_int (u k : Nat) (ns n t : String)
    (hn : ∀ c ∈ n.data, c ≠ '.') (v : Int) (y : Rat) :
    applyUpdate (create_increment_operation (.floatRollingAverage y) n)
        (statsEntryDoc u k ns n (.int32 v) t)
      = .error "Cannot create field in element" := by
  simp [create_increment_operation, applyUpdate, applyIncs, applySets,
    splitKey_total_key n hn, splitKey_count_key n hn, splitKey_type_key n hn,
    applyIncPath, applySetPath, lookupField, setField, addBson, statsEntryDoc]

theorem inc_entry_floatRolling_double (u k : Nat) (ns n t : String)
    (hn : ∀ c ∈ n.data, c ≠ '.') (q y : Rat) :
    applyUpdate (create_increment_operation (.floatRollingAverage y) n)
        (statsEntryDoc u k ns n (.double q) t)
      = .error "Cannot create field in element" := by
  simp [create_increment_operation, applyUpdate, applyIncs, applySets,
    splitKey_total_key n hn, splitKey_count_key n hn, splitKey_type_key n hn,
    applyIncPath, applySetPath, lookupField, setField, addBson, statsEntryDoc]

theorem inc_entry_intRolling_avg_int (u k : Nat) (ns n t : String)
    (hn : ∀ c ∈ n.data, c ≠ '.') (tv c b : Int) :
    applyUpdate (create_increment_operation (.intRollingAverage b) n)
        (statsEntryDoc u k ns n (.doc [("total", .int32 tv), ("count", .int32 c)]) t)
      = .ok (statsEntryDoc u k ns n
          (.doc [("total", .int32 (tv + b)), ("count", .int32 (c + 1))])
          "int_rolling_average") := by
  simp [create_increment_operation, applyUpdate, applyIncs, applySets,
    splitKey_total_key n hn, splitKey_count_key n hn, splitKey_type_key n hn,
    applyIncPath, applySetPath, lookupField, setField, addBson, statsEntryDoc]

theorem inc_entry_intRolling_avg_double (u k : Nat) (ns n t : String)
    (hn : ∀ c ∈ n.data, c ≠ '.') (tq : Rat) (c b : Int) :
    applyUpdate (create_increment_operation (.intRollingAverage b) n)
        (statsEntryDoc u k ns n (.doc [("total", .double tq), ("count", .int32 c)]) t)
      = .ok (statsEntryDoc u k ns n
          (.doc [("total", .double (tq + (b : Rat))), ("count", .int32 (c + 1))])
          "int_rolling_average") := by
  simp [create_increment_operation, applyUpdate, applyIncs, applySets,
    splitKey_total_key n hn, splitKey_count_key n hn, splitKey_type_key n hn,
    applyIncPath, applySetPath, lookupField, setField, addBson, statsEntryDoc]

theorem inc_entry_floatRolling_avg_int (u k : Nat) (ns n t : String)
    (hn : ∀ c ∈ n.data, c ≠ '.') (tv c : Int) (y : Rat) :
    applyUpdate (create_increment_operation (.floatRollingAverage y) n)
        (statsEntryDoc u k ns n (.doc [("total", .int32 tv), ("count", .int32 c)]) t)
      = .ok (statsEntryDoc u k ns n
          (.doc [("total", .double ((tv : Rat) + y)), ("count", .int32 (c + 1))])
          "float_rolling_average") := by
  simp [create_increment_operation, applyUpdate, applyIncs, applySets,
    splitKey_total_key n hn, splitKey_count_key n hn, splitKey_type_key n hn,
    applyIncPath, applySetPath, lookupField, setField, addBson, statsEntryDoc]

theorem inc_entry_floatRolling_avg_double (u k : Nat) (ns n t : String)
    (hn : ∀ c ∈ n.data, c ≠ '.') (tq y : Rat) (c : Int) :
    applyUpdate (create_increment_operation (.floatRollingAverage y) n)
        (statsEntryDoc u k ns n (.doc [("total", .double tq), ("count", .int32 c)]) t)
      = .ok (statsEntryDoc u k ns n
          (.doc [("total", .double (tq + y)), ("count", .int32 (c + 1))])
          "float_rolling_average") := by
  simp [create_increment_operation, applyUpdate, applyIncs, applySets,
    splitKey_total_key n hn, splitKey_count_key n hn, splitKey_type_key n hn,
    applyIncPath, applySetPath, lookupField, setField, addBson, statsEntryDoc]

theorem getPath_entry_value (u k : Nat) (ns n t : String) (V : Bson) :
    getPath (statsEntryDoc u k ns n V t) ["stats", n, "value"] = some V := by
  simp [getPath, statsEntryDoc, lookupField]

theorem getPath_entry_type (u k : Nat) (ns n t : String) (V : Bson) :
    getPath (statsEntryDoc u k ns n V t) ["stats", n, "type"] = some (.str t) := by
  simp [getPath, statsEntryDoc, lookupField]

theorem getPath_entry_sub (u k : Nat) (ns n t s : String) (vs : List (String × Bson)) :
    getPath (statsEntryDoc u k ns n (.doc vs) t) ["stats", n, "value", s]
      = lookupField vs s := by
  simp [getPath, statsEntryDoc, lookupField]

/-- C1: for every separator-free stat name and every `UploadStat` variant,
the mutation built by `create_increment_operation` increments the stored
value field `stats.<n>.value` by the uploaded amount for the totals variants,
and increments `stats.<n>.value.total` by the sample and
`stats.<n>.value.count` by exactly 1 for the rolling-average variants:
applied twice to the freshly ensured document, totals accumulate the sum of
both samples and averages reach `total = a + b`, `count = 2`. -/
theorem c1_create_increment_operation_increments (u k : Nat) (ns n : String)
    (hn : ∀ c ∈ n.data, c ≠ '.') (a b : Int) (x y : Rat) :
    (∃ d1 d2,
      applyUpdate (create_increment_operation (.intTotal a) n) (freshStatsDoc u k ns) = .ok d1
      ∧ getPath d1 ["stats", n, "value"] = some (.int32 a)
      ∧ applyUpdate (create_increment_operation (.intTotal b) n) d1 = .ok d2
      ∧ getPath d2 ["stats", n, "value"] = some (.int32 (a + b))) ∧
    (∃ d1 d2,
      applyUpdate (create_increment_operation (.floatTotal x) n) (freshStatsDoc u k ns) = .ok d1
      ∧ getPath d1 ["stats", n, "value"] = some (.double x)
      ∧ applyUpdate (create_increment_operation (.floatTotal y) n) d1 = .ok d2
      ∧ getPath d2 ["stats", n, "value"] = some (.double (x + y))) ∧
    (∃ d1 d2,
      applyUpdate (create_increment_operation (.intRollingAverage a) n)
          (freshStatsDoc u k ns) = .ok d1
      ∧ getPath d1 ["stats", n, "value", "total"] = some (.int32 a)
      ∧ getPath d1 ["stats", n, "value", "count"] = some (.int32 1)
      ∧ applyUpdate (create_increment_operation (.intRollingAverage b) n) d1 = .ok d2
      ∧ getPath d2 ["stats", n, "value", "total"] = some (.int32 (a + b))
      ∧ getPath d2 ["stats", n, "value", "count"] = some (.int32 2)) ∧
    (∃ d1 d2,
      applyUpdate (create_increment_operation (.floatRollingAverage x) n)
          (freshStatsDoc u k ns) = .ok d1
      ∧ getPath d1 ["stats", n, "value", "total"] = some (.double x)
      ∧ getPath d1 ["stats", n, "value", "count"] = some (.int32 1)
      ∧ applyUpdate (create_increment_operation (.floatRollingAverage y) n) d1 = .ok d2
      ∧ getPath d2 ["stats", n, "value", "total"] = some (.double (x + y))
      ∧ getPath d2 ["stats", n, "value", "count"] = some (.int32 2)) := by
  refine ⟨⟨_, _, inc_fresh_intTotal u k ns n hn a, getPath_entry_value u k ns n _ _,
      inc_entry_intTotal_int u k ns n _ hn a b, getPath_entry_value u k ns n _ _⟩,
    ⟨_, _, inc_fresh_floatTotal u k ns n hn x, getPath_entry_value u k ns n _ _,
      inc_entry_floatTotal_double u k ns n _ hn x y, getPath_entry_value u k ns n _ _⟩,
    ⟨_, _, inc_fresh_intRolling u k ns n hn a, ?_, ?_,
      inc_entry_intRolling_avg_int u k ns n _ hn a 1 b, ?_, ?_⟩,
    ⟨_, _, inc_fresh_floatRolling u k ns n hn x, ?_, ?_,
      inc_entry_floatRolling_avg_double u k ns n _ hn x y 1, ?_, ?_⟩⟩
  all_goals rw [getPath_entry_sub]
  all_goals simp [lookupField]

/-- C1 witness: the `"kills"` stat with samples 3 and 2. -/
theorem c1_create_increment_operation_increments_witness :
    ∃ d1 d2,
      applyUpdate (create_increment_operation (.intTotal 3) "kills")
          (freshStatsDoc 1 0 "ffa") = .ok d1
      ∧ getPath d1 ["stats", "kills", "value"] = some (.int32 3)
      ∧ applyUpdate (create_increment_operation (.intTotal 2) "kills") d1 = .ok d2
      ∧ getPath d2 ["stats", "kills", "value"] = some (.int32 (3 + 2)) :=
  (c1_create_increment_operation_increments 1 0 "ffa" "kills"
    (by decide) 3 2 0 0).1

/-- C10 (amended): every mutation built by `create_increment_operation`
carries, unconditionally, a `$set` of `stats.<n>.type` to the uploaded
variant's wire tag.  When the uploaded variant has the same value shape as
the stored one (scalar↔scalar or average↔average), applying the mutation
overwrites the stored type tag while the value subfields keep their shape —
producing, on an int↔float switch, a stored tag/value mismatch that no
longer decodes (the corruption the source's TODO comment warns about).  A
total↔average switch instead fails the whole update (see the
counterexample), so nothing, not even the tag, is overwritten. -/
theorem c10_type_tag_set_unconditionally (u k : Nat) (ns n : String)
    (hn : ∀ c ∈ n.data, c ≠ '.') (a : Int) (y : Rat) :
    (∀ s : UploadStat, lookupField (create_increment_operation s n) "$set"
        = some (.doc [("stats." ++ n ++ ".type", .str (uploadStatTag s))])) ∧
    (∃ d1 d2,
      applyUpdate (create_increment_operation (.intTotal a) n) (freshStatsDoc u k ns) = .ok d1
      ∧ getPath d1 ["stats", n, "type"] = some (.str "int_total")
      ∧ applyUpdate (create_increment_operation (.floatTotal y) n) d1 = .ok d2
      ∧ getPath d2 ["stats", n, "type"] = some (.str "float_total")
      ∧ getPath d2 ["stats", n, "value"] = some (.double ((a : Rat) + y))) ∧
    (∃ d1 d2,
      applyUpdate (create_increment_operation (.floatTotal y) n) (freshStatsDoc u k ns) = .ok d1
      ∧ applyUpdate (create_increment_operation (.intTotal a) n) d1 = .ok d2
      ∧ getPath d2 ["stats", n, "type"] = some (.str "int_total")
      ∧ getPath d2 ["stats", n, "value"] = some (.double (y + (a : Rat)))) ∧
    (∃ d1 d2,
      applyUpdate (create_increment_operation (.intRollingAverage a) n)
          (freshStatsDoc u k ns) = .ok d1
      ∧ applyUpdate (create_increment_operation (.floatRollingAverage y) n) d1 = .ok d2
      ∧ getPath d2 ["stats", n, "type"] = some (.str "float_rolling_average")
      ∧ getPath d2 ["stats", n, "value", "total"] = some (.double ((a : Rat) + y))
      ∧ getPath d2 ["stats", n, "value", "count"] = some (.int32 2)) ∧
    (∀ q : Rat, decodeGameStat (.doc [("type", .str "int_total"), ("value", .double q)])
      = .error "invalid type: floating point, expected i32") := by
  refine ⟨?_,
    ⟨_, _, inc_fresh_intTotal u k ns n hn a, getPath_entry_type u k ns n _ _,
      inc_entry_floatTotal_int u k ns n _ hn a y, getPath_entry_type u k ns n _ _,
      getPath_entry_value u k ns n _ _⟩,
    ⟨_, _, inc_fresh_floatTotal u k ns n hn y,
      inc_entry_intTotal_double u k ns n _ hn y a, getPath_entry_type u k ns n _ _,
      getPath_entry_value u k ns n _ _⟩,
    ⟨_, _, inc_fresh_intRolling u k ns n hn a,
      inc_entry_floatRolling_avg_int u k ns n _ hn a 1 y,
      getPath_entry_type u k ns n _ _, ?_, ?_⟩,
    ?_⟩
  · intro s
    cases s <;> simp [create_increment_operation, lookupField, uploadStatTag]
  · rw [getPath_entry_sub]; simp [lookupField]
  · rw [getPath_entry_sub]; simp [lookupField]
  · intro q
    simp [decodeGameStat, lookupField, decodeI32]

/-- C10 counterexample: with `{type: "int_total", value: 5}` stored under
`"kills"`, uploading the different variant `IntRollingAverage 3` does not
overwrite the stored type tag: the whole update fails ("Cannot create field
in element"), and so does the opposite switch from a stored average shape
("Cannot apply $inc to a value of non-numeric type"); the `update_one`
request errors and the store is left untouched. -/
theorem c10_type_tag_set_counterexample :
    applyUpdate (create_increment_operation (.intRollingAverage 3) "kills")
        (statsEntryDoc 1 0 "ffa" "kills" (.int32 5) "int_total")
      = .error "Cannot create field in element"
    ∧ applyUpdate (create_increment_operation (.intTotal 2) "kills")
        (statsEntryDoc 1 0 "ffa" "kills"
          (.doc [("total", .int32 5), ("count", .int32 1)]) "int_rolling_average")
      = .error "Cannot apply $inc to a value of non-numeric type"
    ∧ mUpdateOne .playerStats (playerStatsFilter 1 "ffa")
        (create_increment_operation (.intRollingAverage 3) "kills")
        ⟨[], [statsEntryDoc 1 0 "ffa" "kills" (.int32 5) "int_total"], [], [], 2, []⟩
      = .error "Cannot create field in element" :=
  ⟨inc_entry_intRolling_int 1 0 "ffa" "kills" "int_total" (by decide) 5 3,
   inc_entry_intTotal_avg 1 0 "ffa" "kills" "int_rolling_average" (by decide) _ 2,
   by
    simp only [mUpdateOne, DB.coll, updateFirstDoc]
    rw [if_pos (by decide :
      matchesFilter (playerStatsFilter 1 "ffa")
        (statsEntryDoc 1 0 "ffa" "kills" (.int32 5) "int_total") = true)]
    rw [inc_entry_intRolling_int 1 0 "ffa" "kills" "int_total" (by decide) 5 3]⟩

theorem statDocOk_step (u k : Nat) (ns n : String) (hn : ∀ c ∈ n.data, c ≠ '.')
    (s : UploadStat) (d : BDoc) (h : statDocOk u k ns n d) :
    statDocOk u k ns n
      (match applyUpdate (create_increment_operation s n) d with
       | .ok d' => d'
       | .error _ => d) := by
  rcases h with hfresh | ⟨V, t, hentry, hV⟩
  · subst hfresh
    cases s with
    | intTotal a =>
      rw [inc_fresh_intTotal u k ns n hn a]
      exact Or.inr ⟨_, _, rfl, Or.inl ⟨a, rfl⟩⟩
    | floatTotal x =>
      rw [inc_fresh_floatTotal u k ns n hn x]
      exact Or.inr ⟨_, _, rfl, Or.inr (Or.inl ⟨x, rfl⟩)⟩
    | intRollingAverage a =>
      rw [inc_fresh_intRolling u k ns n hn a]
      exact Or.inr ⟨_, _, rfl, Or.inr (Or.inr ⟨_, 1, rfl, le_refl 1, Or.inl ⟨a, rfl⟩⟩)⟩
    | floatRollingAverage x =>
      rw [inc_fresh_floatRolling u k ns n hn x]
      exact Or.inr ⟨_, _, rfl, Or.inr (Or.inr ⟨_, 1, rfl, le_refl 1, Or.inr ⟨x, rfl⟩⟩)⟩
  · subst hentry
    rcases hV with ⟨v, hv⟩ | ⟨q, hq⟩ | ⟨tv, c, hvc, hc, htv⟩
    · subst hv
      cases s with
      | intTotal b =>
        rw [inc_entry_intTotal_int u k ns n t hn v b]
        exact Or.inr ⟨_, _, rfl, Or.inl ⟨_, rfl⟩⟩
      | floatTotal y =>
        rw [inc_entry_floatTotal_int u k ns n t hn v y]
        exact Or.inr ⟨_, _, rfl, Or.inr (Or.inl ⟨_, rfl⟩)⟩
      | intRollingAverage b =>
        rw [inc_entry_intRolling_int u k ns n t hn v b]
        exact Or.inr ⟨_, _, rfl, Or.inl ⟨v, rfl⟩⟩
      | floatRollingAverage y =>
        rw [inc_entry_floatRolling_int u k ns n t hn v y]
        exact Or.inr ⟨_, _, rfl, Or.inl ⟨v, rfl⟩⟩
    · subst hq
      cases s with
      | intTotal b =>
        rw [inc_entry_intTotal_double u k ns n t hn q b]
        exact Or.inr ⟨_, _, rfl, Or.inr (Or.inl ⟨_, rfl⟩)⟩
      | floatTotal y =>
        rw [inc_entry_floatTotal_double u k ns n t hn q y]
        exact Or.inr ⟨_, _, rfl, Or.inr (Or.inl ⟨_, rfl⟩)⟩
      | intRollingAverage b =>
        rw [inc_entry_intRolling_double u k ns n t hn q b]
        exact Or.inr ⟨_, _, rfl, Or.inr (Or.inl ⟨q, rfl⟩)⟩
      | floatRollingAverage y =>
        rw [inc_entry_floatRolling_double u k ns n t hn q y]
        exact Or.inr ⟨_, _, rfl, Or.inr (Or.inl ⟨q, rfl⟩)⟩
    · subst hvc
      have hc1 : (1 : Int) ≤ c + 1 := by omega
      rcases htv with ⟨i, hi⟩ | ⟨tq, htq⟩
      · subst hi
        cases s with
        | intTotal b =>
          rw [inc_entry_intTotal_avg u k ns n t hn _ b]
          exact Or.inr ⟨_, _, rfl, Or.inr (Or.inr ⟨_, c, rfl, hc, Or.inl ⟨i, rfl⟩⟩)⟩
        | floatTotal y =>
          rw [inc_entry_floatTotal_avg u k ns n t hn _ y]
          exact Or.inr ⟨_, _, rfl, Or.inr (Or.inr ⟨_, c, rfl, hc, Or.inl ⟨i, rfl⟩⟩)⟩
        | intRollingAverage b =>
          rw [inc_entry_intRolling_avg_int u k ns n t hn i c b]
          exact Or.inr ⟨_, _, rfl, Or.inr (Or.inr ⟨_, c + 1, rfl, hc1, Or.inl ⟨_, rfl⟩⟩)⟩
        | floatRollingAverage y =>
          rw [inc_entry_floatRolling_avg_int u k ns n t hn i c y]
          exact Or.inr ⟨_, _, rfl, Or.inr (Or.inr ⟨_, c + 1, rfl, hc1, Or.inr ⟨_, rfl⟩⟩)⟩
      · subst htq
        cases s with
        | intTotal b =>
          rw [inc_entry_intTotal_avg u k ns n t hn _ b]
          exact Or.inr ⟨_, _, rfl, Or.inr (Or.inr ⟨_, c, rfl, hc, Or.inr ⟨tq, rfl⟩⟩)⟩
        | floatTotal y =>
          rw [inc_entry_floatTotal_avg u k ns n t hn _ y]
          exact Or.inr ⟨_, _, rfl, Or.inr (Or.inr ⟨_, c, rfl, hc, Or.inr ⟨tq, rfl⟩⟩)⟩
        | intRollingAverage b =>
          rw [inc_entry_intRolling_avg_double u k ns n t hn tq c b]
          exact Or.inr ⟨_, _, rfl, Or.inr (Or.inr ⟨_, c + 1, rfl, hc1, Or.inr ⟨_, rfl⟩⟩)⟩
        | floatRollingAverage y =>
          rw [inc_entry_floatRolling_avg_double u k ns n t hn tq y c]
          exact Or.inr ⟨_, _, rfl, Or.inr (Or.inr ⟨_, c + 1, rfl, hc1, Or.inr ⟨_, rfl⟩⟩)⟩

theorem statDocOk_applyStatOps (u k : Nat) (ns n : String)
    (hn : ∀ c ∈ n.data, c ≠ '.') (ops : List UploadStat) (d : BDoc)
    (h : statDocOk u k ns n d) :
    statDocOk u k ns n (applyStatOps n ops d) := by
  induction ops generalizing d with
  | nil => exact h
  | cons s rest ih =>
    have hstep := statDocOk_step u k ns n hn s d h
    cases happ : applyUpdate (create_increment_operation s n) d with
    | ok d' =>
      rw [happ] at hstep
      simp only [applyStatOps, happ]
      exact ih d' hstep
    | error e =>
      rw [happ] at hstep
      simp only [applyStatOps, happ]
      exact ih d hstep

theorem statDocOk_count (u k : Nat) (ns n : String) (d : BDoc)
    (h : statDocOk u k ns n d) :
    ∀ c, getPath d ["stats", n, "value", "count"] = some (.int32 c) → 1 ≤ c := by
  intro c hc
  rcases h with hfresh | ⟨V, t, hentry, hV⟩
  · subst hfresh
    simp [getPath, freshStatsDoc, lookupField] at hc
  · subst hentry
    rcases hV with ⟨v, hv⟩ | ⟨q, hq⟩ | ⟨tv, c0, hvc, hc0, htv⟩
    · subst hv
      simp [getPath, statsEntryDoc, lookupField] at hc
    · subst hq
      simp [getPath, statsEntryDoc, lookupField] at hc
    · subst hvc
      rw [getPath_entry_sub] at hc
      simp [lookupField] at hc
      omega

/-- C4 (amended): the decoder does not treat a zero count as corruption (see
the counterexample), but a zero count can never arise from the code's own
writes: in every document reachable from the freshly ensured document by any
sequence of increment mutations for a separator-free stat name, the stored
`stats.<n>.value.count` field, whenever present as an integer, is at least 1
— so the display conversion `total / count` never divides by zero on data
this service wrote. -/
theorem c4_count_at_least_one_from_own_writes (u k : Nat) (ns n : String)
    (hn : ∀ c ∈ n.data, c ≠ '.') (ops : List UploadStat) :
    ∀ c, getPath (applyStatOps n ops (freshStatsDoc u k ns)) ["stats", n, "value", "count"]
        = some (.int32 c) → 1 ≤ c :=
  statDocOk_count u k ns n _
    (statDocOk_applyStatOps u k ns n hn ops (freshStatsDoc u k ns) (Or.inl rfl))

/-- C4 counterexample: a stored average stat with `count = 0` decodes
successfully — it is not treated as a corrupted-document condition — and the
display conversion then computes `total / count` with `count = 0`
unconditionally (the source has no zero guard; in Rust `f64` arithmetic the
result is an infinity or NaN, not an error). -/
theorem c4_count_zero_decodes_successfully :
    decodeGameStat (.doc [("type", .str "int_average"),
        ("value", .doc [("total", .int32 5), ("count", .int32 0)])])
      = .ok (.intAverage 5 0) := rfl

/-- C4 witness: two rolling-average uploads for `"kills"` leave `count = 2`,
and the reachability theorem confirms `1 ≤ 2`. -/
theorem c4_count_at_least_one_from_own_writes_witness :
    getPath (applyStatOps "kills" [.intRollingAverage 4, .intRollingAverage 6]
        (freshStatsDoc 1 0 "ffa")) ["stats", "kills", "value", "count"]
      = some (.int32 2)
    ∧ (1 : Int) ≤ 2 :=
  ⟨rfl, c4_count_at_least_one_from_own_writes 1 0 "ffa" "kills" (by decide)
    [.intRollingAverage 4, .intRollingAverage 6] 2 rfl⟩

/-- C8 (amended): an authorized upload bundle in which any **player-scoped**
stat name contains the path separator `'.'` is rejected wholesale with a
bad-request response before any store interaction — the store state is
returned exactly unchanged.  Global stat names are not visited by the
validation loop (see the counterexample). -/
theorem c8_dotted_player_stat_names_rejected (tokens : List String) (auth : String)
    (b : GameStatsBundle) (db : DB)
    (hauth : tokens.contains auth = true)
    (hdot : ∃ ps ∈ b.stats.players, ∃ st ∈ ps.2, containsDotChar st.1 = true) :
    upload_game_stats tokens auth b db = .ok (.badRequest, db) := by
  have hval : statsNameValidationFails b = true := by
    simp only [statsNameValidationFails, List.any_eq_true]
    obtain ⟨ps, hps, st, hst, hdot'⟩ := hdot
    exact ⟨ps, hps, st, hst, hdot'⟩
  simp only [upload_game_stats, hauth, hval, not_true_eq_false, if_false, if_true,
    Bool.false_eq_true, M.run_pure]

/-- C8 counterexample: a bundle whose only stat is the **global** stat named
`"kills.count"` passes validation, reaches the store, and creates and
mutates a global stats document — the embedded separator corrupts the field
path, nesting `count` inside a `kills` entry.  The claim's wholesale
rejection does not happen for global stat names. -/
theorem c8_global_dotted_name_not_rejected :
    upload_game_stats ["tok"] "tok"
        ⟨"lobby", "ffa", ⟨some [("kills.count", .intTotal 1)], []⟩⟩
        ⟨[], [], [], [], 0, []⟩
      = .ok (.noContent,
        ⟨[], [],
          [[("_id", .objectId 0), ("namespace", .str "ffa"),
            ("stats", .doc [("kills", .doc [("count",
              .doc [("value", .int32 1), ("type", .str "int_total")])])])]],
          [], 1,
          [.ensured (.global "ffa"), .increment (.global "ffa") "kills.count"]⟩) := rfl

/-- C8 witness: a bundle holding the player-scoped stat `"kills.count"` for
player 1 is rejected with no store interaction. -/
theorem c8_dotted_player_stat_names_rejected_witness :
    upload_game_stats ["tok"] "tok"
        ⟨"lobby", "ffa", ⟨none, [(1, [("kills.count", .intTotal 1)])]⟩⟩
        ⟨[], [], [], [], 0, []⟩
      = .ok (.badRequest, ⟨[], [], [], [], 0, []⟩) :=
  c8_dotted_player_stat_names_rejected ["tok"] "tok"
    ⟨"lobby", "ffa", ⟨none, [(1, [("kills.count", .intTotal 1)])]⟩⟩
    ⟨[], [], [], [], 0, []⟩ rfl
    ⟨(1, [("kills.count", .intTotal 1)]), by simp,
      ("kills.count", .intTotal 1), by simp, by decide⟩

theorem orderedTrace_nil : orderedTrace [] := by
  unfold orderedTrace
  intro i s m h
  simp at h

theorem orderedTrace_append_ensured {t : List Event} (s' : Subject)
    (h : orderedTrace t) : orderedTrace (t ++ [.ensured s']) := by
  unfold orderedTrace
  intro i s m hi
  by_cases hlen : i < t.length
  · rw [List.getElem?_append_left hlen] at hi
    obtain ⟨j, hj, hjev⟩ := h i s m hi
    exact ⟨j, hj, by rw [List.getElem?_append_left (hj.trans hlen)]; exact hjev⟩
  · rw [List.getElem?_append_right (Nat.le_of_not_lt hlen)] at hi
    have hlt : i - t.length < 1 := (List.getElem?_eq_some.mp hi).1
    have h0 : i - t.length = 0 := by omega
    rw [h0] at hi
    simp at hi

theorem orderedTrace_append_increment {t : List Event} {s : Subject} (m : String)
    (h : orderedTrace t) (hmem : Event.ensured s ∈ t) :
    orderedTrace (t ++ [.increment s m]) := by
  unfold orderedTrace
  intro i s' m' hi
  by_cases hlen : i < t.length
  · rw [List.getElem?_append_left hlen] at hi
    obtain ⟨j, hj, hjev⟩ := h i s' m' hi
    exact ⟨j, hj, by rw [List.getElem?_append_left (hj.trans hlen)]; exact hjev⟩
  · rw [List.getElem?_append_right (Nat.le_of_not_lt hlen)] at hi
    have hlt : i - t.length < 1 := (List.getElem?_eq_some.mp hi).1
    have hieq : i = t.length := by omega
    have h0 : i - t.length = 0 := by omega
    rw [h0] at hi
    simp at hi
    obtain ⟨hs, hm⟩ := hi
    subst hs
    obtain ⟨j, hj⟩ := List.getElem?_of_mem hmem
    have hjlen : j < t.length := (List.getElem?_eq_some.mp hj).1
    exact ⟨j, by omega, by rw [List.getElem?_append_left hjlen]; exact hj⟩

theorem DB.setColl_trace (db : DB) (c : Coll) (l : List BDoc) :
    (db.setColl c l).trace = db.trace := by
  cases c <;> rfl

theorem mUpdateOne_trace {c : Coll} {f upd : BDoc} {db : DB} {r : Unit} {db' : DB}
    (h : mUpdateOne c f upd db = .ok (r, db')) : db'.trace = db.trace := by
  unfold mUpdateOne at h
  cases hu : updateFirstDoc (db.coll c) (matchesFilter f) upd with
  | ok l =>
    rw [hu] at h
    simp only [Except.ok.injEq, Prod.mk.injEq, true_and] at h
    rw [← h, DB.setColl_trace]
  | error e => rw [hu] at h; cases h

/-- The `ensure_player_stats_document` when the corrupt document has no `_id`:
the `unwrap` panics is modelled as an error. -/
theorem ensure_player_run_panic {u : Nat} {ns : String} {db : DB}
    {p : PlayerProfile} {db1 : DB} {d : BDoc} {e : String}
    (h1 : update_player_profile u none db = .ok (p, db1))
    (h2 : db1.playerStats.find? (matchesFilter (playerStatsFilter u ns)) = some d)
    (h3 : decodePlayerGameStats d = .error e)
    (h4 : lookupField d "_id" = none) :
    ensure_player_stats_document u ns db
      = .error "panicked at Option::unwrap on a None value" := by
  simp only [ensure_player_stats_document, M.run_bind, h1, mFindFirst_run, DB.coll, h2, h3,
    M.run_pure, handle_broken_player_stats_document, handle_broken_document,
    mInsertOne, h4, DB.setColl, throwM]

theorem ensure_player_trace {u : Nat} {ns : String} {db : DB} {r : Unit} {db' : DB}
    (h : ensure_player_stats_document u ns db = .ok (r, db')) :
    db'.trace = db.trace ++ [Event.ensured (.player u ns)] := by
  cases hupp : update_player_profile u none db with
  | error e =>
    simp only [ensure_player_stats_document, M.run_bind, hupp] at h
    simp at h
  | ok pr =>
    obtain ⟨p, db1⟩ := pr
    obtain ⟨-, -, -, htr, -⟩ := update_player_profile_state hupp
    cases hf : db1.playerStats.find? (matchesFilter (playerStatsFilter u ns)) with
    | none =>
      rw [ensure_player_run_insert hupp hf] at h
      simp only [Except.ok.injEq, Prod.mk.injEq, true_and] at h
      rw [← h]
      simp [htr]
    | some d =>
      cases hd : decodePlayerGameStats d with
      | ok s =>
        rw [ensure_player_run_exists hupp hf hd] at h
        simp only [Except.ok.injEq, Prod.mk.injEq, true_and] at h
        rw [← h]
        simp [htr]
      | error e =>
        cases hid : lookupField d "_id" with
        | some idv =>
          rw [ensure_player_run_corrupt hupp hf hd hid] at h
          simp only [Except.ok.injEq, Prod.mk.injEq, true_and] at h
          rw [← h]
          simp [htr]
        | none =>
          rw [ensure_player_run_panic hupp hf hd hid] at h
          cases h

/-- The `ensure_global_stats_document` on a corrupt document with an `_id`. -/
theorem ensure_global_run_corrupt {ns : String} {db : DB} {d : BDoc} {e : String}
    {idv : Bson}
    (h2 : db.globalStats.find? (matchesFilter (globalStatsFilter ns)) = some d)
    (h3 : decodeGlobalGameStats d = .error e)
    (h4 : lookupField d "_id" = some idv) :
    ensure_global_stats_document ns db =
      .ok ((), ⟨db.players, db.playerStats,
        (db.globalStats.eraseP (matchesFilter [("_id", idv)]))
          ++ [("_id", .objectId (db.nextId + 1)) :: encodeGlobalGameStats ⟨ns, []⟩],
        db.corruptStats ++ [d], db.nextId + 2,
        db.trace ++ [.ensured (.global ns)]⟩) := by
  simp only [ensure_global_stats_document, M.run_bind, mFindFirst_run, DB.coll, h2, h3,
    M.run_pure, handle_broken_global_stats_document, handle_broken_document,
    mInsertOne, h4, Option.isSome_some, if_true, DB.setColl, mDeleteOne, emitM_run]
  simp only [encodeGlobalGameStats, encodeStatsMap, lookupField, List.map_nil]
  simp [lookupField]

/-- The `ensure_global_stats_document` when the corrupt document has no `_id`. -/
theorem ensure_global_run_panic {ns : String} {db : DB} {d : BDoc} {e : String}
    (h2 : db.globalStats.find? (matchesFilter (globalStatsFilter ns)) = some d)
    (h3 : decodeGlobalGameStats d = .error e)
    (h4 : lookupField d "_id" = none) :
    ensure_global_stats_document ns db
      = .error "panicked at Option::unwrap on a None value" := by
  simp only [ensure_global_stats_document, M.run_bind, mFindFirst_run, DB.coll, h2, h3,
    M.run_pure, handle_broken_global_stats_document, handle_broken_document,
    mInsertOne, h4, DB.setColl, throwM]

theorem ensure_global_trace {ns : String} {db : DB} {r : Unit} {db' : DB}
    (h : ensure_global_stats_document ns db = .ok (r, db')) :
    db'.trace = db.trace ++ [Event.ensured (.global ns)] := by
  cases hf : db.globalStats.find? (matchesFilter (globalStatsFilter ns)) with
  | none =>
    rw [ensure_global_run_insert hf] at h
    simp only [Except.ok.injEq, Prod.mk.injEq, true_and] at h
    rw [← h]
  | some d =>
    cases hd : decodeGlobalGameStats d with
    | ok s =>
      rw [ensure_global_run_exists hf hd] at h
      simp only [Except.ok.injEq, Prod.mk.injEq, true_and] at h
      rw [← h]
    | error e =>
      cases hid : lookupField d "_id" with
      | some idv =>
        rw [ensure_global_run_corrupt hf hd hid] at h
        simp only [Except.ok.injEq, Prod.mk.injEq, true_and] at h
        rw [← h]
      | none =>
        rw [ensure_global_run_panic hf hd hid] at h
        cases h

theorem upload_player_mutations_ordered {u : Nat} {ns : String}
    (stats : List (String × UploadStat)) {db : DB} {r : Unit} {db' : DB}
    (h : upload_player_stat_mutations u ns stats db = .ok (r, db'))
    (ho : orderedTrace db.trace)
    (hmem : Event.ensured (.player u ns) ∈ db.trace) :
    orderedTrace db'.trace := by
  induction stats generalizing db with
  | nil =>
    simp only [upload_player_stat_mutations, M.run_pure, Except.ok.injEq,
      Prod.mk.injEq, true_and] at h
    rw [← h]
    exact ho
  | cons st rest ih =>
    obtain ⟨name, stat⟩ := st
    simp only [upload_player_stat_mutations, M.run_bind, emitM_run] at h
    cases hupd : mUpdateOne .playerStats (playerStatsFilter u ns)
        (create_increment_operation stat name)
        { db with trace := db.trace ++ [.increment (.player u ns) name] } with
    | error e => rw [hupd] at h; cases h
    | ok pr =>
      obtain ⟨u1, dbU⟩ := pr
      rw [hupd] at h
      have htrU : dbU.trace = db.trace ++ [.increment (.player u ns) name] :=
        mUpdateOne_trace hupd
      refine ih h ?_ ?_
      · rw [htrU]
        exact orderedTrace_append_increment name ho hmem
      · rw [htrU]
        exact List.mem_append_left _ hmem

theorem upload_global_mutations_ordered {ns : String}
    (stats : List (String × UploadStat)) {db : DB} {r : Unit} {db' : DB}
    (h : upload_global_stat_mutations ns stats db = .ok (r, db'))
    (ho : orderedTrace db.trace)
    (hmem : Event.ensured (.global ns) ∈ db.trace) :
    orderedTrace db'.trace := by
  induction stats generalizing db with
  | nil =>
    simp only [upload_global_stat_mutations, M.run_pure, Except.ok.injEq,
      Prod.mk.injEq, true_and] at h
    rw [← h]
    exact ho
  | cons st rest ih =>
    obtain ⟨name, stat⟩ := st
    simp only [upload_global_stat_mutations, M.run_bind, emitM_run] at h
    cases hupd : mUpdateOne .globalStats (globalStatsFilter ns)
        (create_increment_operation stat name)
        { db with trace := db.trace ++ [.increment (.global ns) name] } with
    | error e => rw [hupd] at h; cases h
    | ok pr =>
      obtain ⟨u1, dbU⟩ := pr
      rw [hupd] at h
      have htrU : dbU.trace = db.trace ++ [.increment (.global ns) name] :=
        mUpdateOne_trace hupd
      refine ih h ?_ ?_
      · rw [htrU]
        exact orderedTrace_append_increment name ho hmem
      · rw [htrU]
        exact List.mem_append_left _ hmem

theorem upload_players_loop_ordered {ns : String}
    (players : List (Nat × List (String × UploadStat))) {db : DB} {r : Unit} {db' : DB}
    (h : upload_players_loop ns players db = .ok (r, db'))
    (ho : orderedTrace db.trace) :
    orderedTrace db'.trace := by
  induction players generalizing db with
  | nil =>
    simp only [upload_players_loop, M.run_pure, Except.ok.injEq,
      Prod.mk.injEq, true_and] at h
    rw [← h]
    exact ho
  | cons pl rest ih =>
    obtain ⟨player, stats⟩ := pl
    simp only [upload_players_loop, M.run_bind] at h
    cases hens : ensure_player_stats_document player ns db with
    | error e => rw [hens] at h; cases h
    | ok pr =>
      obtain ⟨u1, dbE⟩ := pr
      rw [hens] at h
      simp only [] at h
      have htrE := ensure_player_trace hens
      have hoE : orderedTrace dbE.trace := by
        rw [htrE]
        exact orderedTrace_append_ensured _ ho
      have hmemE : Event.ensured (.player player ns) ∈ dbE.trace := by
        rw [htrE]
        exact List.mem_append_right _ (by simp)
      cases hmut : upload_player_stat_mutations player ns stats dbE with
      | error e => rw [hmut] at h; cases h
      | ok pr2 =>
        obtain ⟨u2, dbM⟩ := pr2
        rw [hmut] at h
        exact ih h (upload_player_mutations_ordered stats hmut hoE hmemE)

/-- C7: in every successfully processed upload bundle, each per-field
increment mutation issued to the store for a subject is preceded in the
event trace by the completed ensure step for that same subject — the
document-existence guarantor runs to completion before any increment for
the subject is issued. -/
theorem c7_ensure_completes_before_increments (b : GameStatsBundle) {db db' : DB}
    {r : Unit} (h0 : db.trace = [])
    (h : upload_stats_bundle b db = .ok (r, db')) :
    orderedTrace db'.trace := by
  have ho0 : orderedTrace db.trace := by
    rw [h0]
    exact orderedTrace_nil
  simp only [upload_stats_bundle, M.run_bind] at h
  cases hloop : upload_players_loop b.namespace' b.stats.players db with
  | error e => rw [hloop] at h; cases h
  | ok pr =>
    obtain ⟨u1, dbP⟩ := pr
    rw [hloop] at h
    simp only [] at h
    have hoP := upload_players_loop_ordered b.stats.players hloop ho0
    cases hg : b.stats.global with
    | none =>
      rw [hg] at h
      simp only [M.run_pure, Except.ok.injEq, Prod.mk.injEq, true_and] at h
      rw [← h]
      exact hoP
    | some gstats =>
      rw [hg] at h
      simp only [M.run_bind] at h
      cases hens : ensure_global_stats_document b.namespace' dbP with
      | error e => rw [hens] at h; cases h
      | ok pr2 =>
        obtain ⟨u2, dbG⟩ := pr2
        rw [hens] at h
        simp only [] at h
        have htrG := ensure_global_trace hens
        have hoG : orderedTrace dbG.trace := by
          rw [htrG]
          exact orderedTrace_append_ensured _ hoP
        have hmemG : Event.ensured (.global b.namespace') ∈ dbG.trace := by
          rw [htrG]
          exact List.mem_append_right _ (by simp)
        exact upload_global_mutations_ordered gstats h hoG hmemG

/-- C7 witness: a bundle uploading `"kills"` for player 1 and a global
`"matches"` stat, run on an empty store, produces the trace
`[ensured player, increment player, ensured global, increment global]`,
which is ordered. -/
theorem c7_ensure_completes_before_increments_witness :
    upload_stats_bundle
        ⟨"lobby", "ffa", ⟨some [("matches", .intTotal 1)], [(1, [("kills", .intTotal 3)])]⟩⟩
        ⟨[], [], [], [], 0, []⟩
      = .ok ((),
        ⟨[[("_id", .objectId 0), ("uuid", .binary 1), ("username", .null)]],
          [[("_id", .objectId 1), ("uuid", .binary 1), ("namespace", .str "ffa"),
            ("stats", .doc [("kills", .doc [("value", .int32 3), ("type", .str "int_total")])])]],
          [[("_id", .objectId 2), ("namespace", .str "ffa"),
            ("stats", .doc [("matches", .doc [("value", .int32 1), ("type", .str "int_total")])])]],
          [], 3,
          [.ensured (.player 1 "ffa"), .increment (.player 1 "ffa") "kills",
           .ensured (.global "ffa"), .increment (.global "ffa") "matches"]⟩)
    ∧ orderedTrace
        [.ensured (.player 1 "ffa"), .increment (.player 1 "ffa") "kills",
         .ensured (.global "ffa"), .increment (.global "ffa") "matches"] :=
  ⟨rfl, c7_ensure_completes_before_increments
    ⟨"lobby", "ffa", ⟨some [("matches", .intTotal 1)], [(1, [("kills", .intTotal 3)])]⟩⟩
    (show DB.trace ⟨[], [], [], [], 0, []⟩ = [] from rfl) rfl⟩

/-- C10 witness: the mutation for a `FloatTotal` upload of `"kills"` carries
the unconditional `$set` of `stats.kills.type` to `"float_total"`. -/
theorem c10_type_tag_set_unconditionally_witness :
    lookupField (create_increment_operation (.floatTotal 2) "kills") "$set"
      = some (.doc [("stats.kills.type", .str "float_total")]) :=
  (c10_type_tag_set_unconditionally 1 0 "ffa" "kills" (by decide) 5 2).1 (.floatTotal 2)
